import Mathlib

/-!
# SoftAP lifecycle controller (`softap/sdk/qsap.c`)

A shallow embedding of `qsap.c`.  The program talks to the outside world
(kernel module primitives, the property store, `/proc/modules`, shell
commands, sockets); every such call is answered by an `Env`, a record of
oracles that may depend on the whole history of earlier calls.  The history
is the `Trace`: every function of the program takes the trace so far and
gives back its result together with the extended trace.

Conventions

* C integers (`s32`, `int`) are `Int`; loop counters that only count down
  from a small constant are `Nat`.
* A C string is a `String`, or the `List Char` of its characters where the
  code walks it character by character; one `Char` stands for one `char`.
  The terminating NUL is implicit: reading past the end of the list gives
  NUL.
* Log output (`LOGD`, `LOGE`, `LOGW`) changes neither control flow nor
  data, and is left out.
* The code is the variant compiled without `SDK_TEST`.
-/

namespace Qsap

/-! ## Constants -/

/-- Constants of the header `qsap_api.h`: the header is not part of the sources at
hand, so its values are a parameter of everything that uses them. -/
structure Header where
  eSUCCESS : Int
  eERR_STOP_BSS : Int
  eERR_START_SAP : Int
  eERR_STOP_SAP : Int
  eERR_RELOAD_SAP : Int
  eERR_COMMIT : Int
  ENABLE : Int
  DISABLE : Int
  CONFIG_FILE : String
  deriving DecidableEq, Repr

def WIFI_DRIVER_MODULE_PATH : String := "/system/lib/modules/wlan.ko"
def WIFI_DRIVER_MODULE_NAME : String := "wlan"
def WIFI_SDIO_IF_DRIVER_MODULE_PATH : String := "/system/lib/modules/librasdioif.ko"
def WIFI_SDIO_IF_DRIVER_MODULE_NAME : String := "librasdioif"
def WIFI_SDIO_IF_DRIVER_MODULE_ARG : String := ""
def WIFI_DRIVER_MODULE_ARG : String := "con_mode=1"
def SDIO_POLLING_ON : String := "/etc/init.qcom.sdio.sh 1"
def SDIO_POLLING_OFF : String := "/etc/init.qcom.sdio.sh 0"

/-- Linux `errno.h`. -/
def EAGAIN : Int := 11
/-- Linux `fcntl.h`: `O_NONBLOCK` is octal 04000. -/
def O_NONBLOCK : Nat := 2048
/-- Linux `fcntl.h`: `O_EXCL` is octal 0200. -/
def O_EXCL : Nat := 128
/-- Linux `wireless.h`: `SIOCIWFIRSTPRIV` is 0x8BE0. -/
def SIOCIWFIRSTPRIV : Nat := 35808
def QCIEEE80211_IOCTL_STOPBSS : Nat := SIOCIWFIRSTPRIV + 6
/-- Linux `socket.h`. -/
def AF_INET : Int := 2
/-- Linux `socket.h`. -/
def SOCK_DGRAM : Int := 2
/-- Linux `if.h`: size of `ifr_name`. -/
def IFNAMSIZ : Nat := 16

/-! ## Events and environments -/

/-- One call that leaves the program, with its arguments and what came back.
`enter` is the only event that is no external call: it marks the entry into one
of the program's own functions, so that invocations can be counted. -/
inductive Event where
  | enter (fn : String)
  | system (cmd : String) (ret : Int)
  | fopen (path : String) (ok : Bool)
  | fclose
  | load_file (path : String) (ok : Bool)
  | init_module (image : List Char) (size : Int) (args : String) (ret : Int)
  | free
  | delete_module (name : String) (flags : Nat) (ret : Int) (errno : Int)
  | usleep (usec : Nat)
  | sleep (sec : Nat)
  | sched_yield
  | property_get (key : String) (ret : Int) (value : String)
  | property_set (key : String) (value : String) (ret : Int)
  | qsap_get_config_value (file : String) (key : String) (result : Option String)
  | socket (domain : Int) (type : Int) (protocol : Int) (ret : Int)
  | ioctl (fd : Int) (request : Nat) (ifr_name : String) (data : String) (ret : Int)
  | close (fd : Int)
  deriving DecidableEq, Repr

abbrev Trace := List Event

/-- Entry markers are bookkeeping of the model, not calls. -/
def Event.isEnter : Event → Bool
  | .enter _ => true
  | _ => false

/-- The calls made so far, as the outside world has seen them: the trace without
its entry markers. -/
def external (t : Trace) : Trace := t.filter (fun e => !e.isEnter)

/-- The outside world.  Each oracle is given the calls made before the one it
answers (`external` of the trace so far). -/
structure Env where
  /-- `system(cmd)`: the command's exit status. -/
  system : Trace → String → Int
  /-- `fopen(path, "r")` and what the stream will deliver; `none` is NULL. -/
  fopen : Trace → String → Option (List Char)
  /-- `load_file(path, &size)`: the image, its size being its length; `none` is NULL. -/
  load_file : Trace → String → Option (List Char)
  /-- `init_module(image, size, args)`. -/
  init_module : Trace → List Char → Int → String → Int
  /-- `delete_module(name, flags)`: the return value and `errno` after the call. -/
  delete_module : Trace → String → Nat → Int × Int
  /-- `property_get(key, value, NULL)`: the return value and the buffer's content. -/
  property_get : Trace → String → Int × String
  /-- `property_set(key, value)`. -/
  property_set : Trace → String → String → Int
  /-- `qsap_get_config_value(file, key, buf, &len)`; `none` is NULL. -/
  qsap_get_config_value : Trace → String → String → Option String
  /-- `socket(domain, type, protocol)`. -/
  socket : Trace → Int → Int → Int → Int
  /-- `ioctl(fd, request, &wrq)` with the request's interface name and payload. -/
  ioctl : Trace → Int → Nat → String → String → Int

/-! ## C library helpers -/

/-- NUL, the string terminator. -/
def NUL : Char := Char.ofNat 0

/-- `strncmp(s1, s2, n) == 0`: the first `n` characters agree, the comparison ending
early at a NUL present in both. -/
def strncmp_eq : List Char → List Char → Nat → Bool
  | _, _, 0 => true
  | s1, s2, n + 1 =>
    let c1 := s1.headD NUL
    let c2 := s2.headD NUL
    if c1 ≠ c2 then false
    else if c1 = NUL then true
    else strncmp_eq s1.tail s2.tail n

/-- `strlen`: the number of characters before the first NUL. -/
def strlen (s : List Char) : Nat := (s.takeWhile (· ≠ NUL)).length

/-- The reading part of `fgets`: at most `room` characters, stopping after a newline
or at the end of the stream.  Gives what was read and what is left of the stream. -/
def fgets_read : Nat → List Char → List Char × List Char
  | 0, s => ([], s)
  | _ + 1, [] => ([], [])
  | room + 1, ch :: s =>
    if ch = '\n' then ([ch], s)
    else ((fgets_read room s).1.cons ch, (fgets_read room s).2)

/-- `fgets(line, size, stream)`: NULL (`none`) when the stream is at its end,
otherwise the line buffer's new content and the rest of the stream. -/
def fgets (size : Nat) (stream : List Char) : Option (List Char × List Char) :=
  match stream with
  | [] => none
  | _ :: _ => some (fgets_read (size - 1) stream)

/-! ## Module loader -/

/-- The loop `while (fgets(line, sizeof(line), proc) != NULL)` of
`check_driver_loaded`, with `line` of 126 characters.  `fuel` bounds the number
of rounds; a round takes at least one character off the stream, so the length of
the stream is enough fuel (`check_driver_loaded_loop_fuel`). -/
def check_driver_loaded_loop (tag : List Char) : Nat → List Char → Int
  | 0, _ => 0
  | fuel + 1, stream =>
    match fgets 126 stream with
    | none => 0
    | some (line, rest) =>
      if strncmp_eq line tag (strlen tag) then 1
      else check_driver_loaded_loop tag fuel rest

/-- `check_driver_loaded(tag)`: qsap.c lines 90-110. -/
def check_driver_loaded (env : Env) (tag : String) (t : Trace) : Int × Trace :=
  match env.fopen (external t) "/proc/modules" with
  | none => (0, t ++ [.fopen "/proc/modules" false])
  | some proc =>
    (check_driver_loaded_loop tag.toList proc.length proc,
      t ++ [.fopen "/proc/modules" true, .fclose])

/-- `insmod(filename, args, tag)`: qsap.c lines 112-145. -/
def insmod (env : Env) (filename args tag : String) (t : Trace) : Int × Trace :=
  let probe := check_driver_loaded env tag t
  if probe.1 ≠ 0 then (0, probe.2)
  else
    match env.load_file (external probe.2) filename with
    | none => (-1, probe.2 ++ [.load_file filename false])
    | some module =>
      let t1 := probe.2 ++ [.load_file filename true]
      let ret := env.init_module (external t1) module module.length args
      (ret, t1 ++ [.init_module module module.length args ret, .free])

/-- The loop `while (maxtry-- > 0)` of `rmmod`; `ret` is the variable of that name. -/
def rmmod_loop (env : Env) (modname : String) : Nat → Int → Trace → Int × Trace
  | 0, ret, t => (ret, t)
  | maxtry + 1, _, t =>
    let r := env.delete_module (external t) modname (O_NONBLOCK ||| O_EXCL)
    let t1 := t ++ [.delete_module modname (O_NONBLOCK ||| O_EXCL) r.1 r.2]
    if r.1 < 0 ∧ r.2 = EAGAIN then rmmod_loop env modname maxtry r.1 (t1 ++ [.usleep 50000])
    else (r.1, t1)

/-- `rmmod(modname)`: qsap.c lines 147-172. -/
def rmmod (env : Env) (modname : String) (t : Trace) : Int × Trace :=
  rmmod_loop env modname 10 0 t

/-! ## Bus polling and the driver entry points -/

/-- `system(cmd)`, its result kept for the caller to look at. -/
def run_system (env : Env) (cmd : String) (t : Trace) : Int × Trace :=
  let ret := env.system (external t) cmd
  (ret, t ++ [.system cmd ret])

/-- What both unload functions do between their first `system` call and the label
`end`: the value of `ret` on arrival at `end`, and the trace. -/
def unload_modules (env : Env) (t : Trace) : Int × Trace :=
  let p1 := check_driver_loaded env (WIFI_DRIVER_MODULE_NAME ++ " ") t
  let r1 := if p1.1 ≠ 0 then rmmod env WIFI_DRIVER_MODULE_NAME p1.2 else (0, p1.2)
  if r1.1 ≠ 0 then (1, r1.2)
  else
    let t1 := r1.2 ++ [.sched_yield]
    let p2 := check_driver_loaded env (WIFI_SDIO_IF_DRIVER_MODULE_NAME ++ " ") t1
    let r2 := if p2.1 ≠ 0 then rmmod env WIFI_SDIO_IF_DRIVER_MODULE_NAME p2.2 else (0, p2.2)
    if r2.1 ≠ 0 then (1, r2.2) else (0, r2.2)

/-- `wifi_qsap_unload_wifi_sta_driver()`: qsap.c lines 215-247. -/
def wifi_qsap_unload_wifi_sta_driver (env : Env) (t : Trace) : Int × Trace :=
  let t0 := t ++ [.enter "wifi_qsap_unload_wifi_sta_driver"]
  let enable := run_system env SDIO_POLLING_ON t0
  let body := unload_modules env enable.2
  let off := run_system env SDIO_POLLING_OFF body.2
  (0, off.2 ++ [.sched_yield])

/-- `wifi_qsap_unload_driver()`: qsap.c lines 249-280. -/
def wifi_qsap_unload_driver (env : Env) (t : Trace) : Int × Trace :=
  let t0 := t ++ [.enter "wifi_qsap_unload_driver"]
  let enable := run_system env SDIO_POLLING_ON t0
  let body := unload_modules env enable.2
  let off := run_system env SDIO_POLLING_OFF body.2
  (0, off.2)

/-- `wifi_qsap_load_driver()`: qsap.c lines 177-213. -/
def wifi_qsap_load_driver (env : Env) (t : Trace) : Int × Trace :=
  let t0 := t ++ [.enter "wifi_qsap_load_driver"]
  let sta := wifi_qsap_unload_wifi_sta_driver env t0
  let enable := run_system env SDIO_POLLING_ON sta.2
  let r1 := insmod env WIFI_SDIO_IF_DRIVER_MODULE_PATH WIFI_SDIO_IF_DRIVER_MODULE_ARG
    (WIFI_SDIO_IF_DRIVER_MODULE_NAME ++ " ") enable.2
  if r1.1 ≠ 0 then (r1.1, (run_system env SDIO_POLLING_OFF r1.2).2)
  else
    let r2 := insmod env WIFI_DRIVER_MODULE_PATH WIFI_DRIVER_MODULE_ARG
      (WIFI_DRIVER_MODULE_NAME ++ " ") (r1.2 ++ [.sched_yield])
    if r2.1 ≠ 0 then (r2.1, (run_system env SDIO_POLLING_OFF r2.2).2)
    else (r2.1, (run_system env SDIO_POLLING_OFF (r2.2 ++ [.sched_yield])).2)

/-! ## BSS controller and service state -/

/-- `wifi_qsap_stop_bss()`: qsap.c lines 282-328. -/
def wifi_qsap_stop_bss (c : Header) (env : Env) (t : Trace) : Int × Trace :=
  let t0 := t ++ [.enter "wifi_qsap_stop_bss"]
  let iface := env.qsap_get_config_value (external t0) c.CONFIG_FILE "interface"
  let t1 := t0 ++ [.qsap_get_config_value c.CONFIG_FILE "interface" iface]
  match iface with
  | none => (c.eERR_STOP_BSS, t1)
  | some name =>
    let sock := env.socket (external t1) AF_INET SOCK_DGRAM 0
    let t2 := t1 ++ [.socket AF_INET SOCK_DGRAM 0 sock]
    if sock < 0 then (c.eERR_STOP_BSS, t2)
    else
      let ifr_name := String.mk (name.toList.take IFNAMSIZ)
      let answer := env.ioctl (external t2) sock QCIEEE80211_IOCTL_STOPBSS ifr_name "stopbss"
      let t3 := t2 ++ [.ioctl sock QCIEEE80211_IOCTL_STOPBSS ifr_name "stopbss" answer]
      let ret : Int := 0
      let t4 := t3 ++ [.close sock]
      let ret := if ret ≠ 0 then c.eERR_STOP_BSS else c.eSUCCESS
      (ret, t4 ++ [.sched_yield])

/-- `is_softap_enabled()`: qsap.c lines 330-342. -/
def is_softap_enabled (c : Header) (env : Env) (t : Trace) : Int × Trace :=
  let r := env.property_get (external t) "init.svc.hostapd"
  let t1 := t ++ [.property_get "init.svc.hostapd" r.1 r.2]
  if r.1 ≠ 0 ∧ r.2 = "running" then (c.ENABLE, t1) else (c.DISABLE, t1)

/-! ## Orchestrator -/

/-- The loop `while (--retry)` of `wifi_qsap_start_softap`; the argument is the
value of `retry` before the decrement.  The function enters the loop with 4;
the loop is not entered with 0. -/
def start_softap_loop (c : Header) (env : Env) : Nat → Trace → Int × Trace
  | 0, t => (c.eERR_START_SAP, t)
  | 1, t => (c.eERR_START_SAP, t)
  | retry + 2, t =>
    let set := env.property_set (external t) "ctl.start" "hostapd"
    let t1 := t ++ [.property_set "ctl.start" "hostapd" set]
    if set ≠ 0 then start_softap_loop c env (retry + 1) t1
    else
      let up := is_softap_enabled c env (t1 ++ [.sleep 1])
      if up.1 ≠ 0 then (c.eSUCCESS, up.2)
      else start_softap_loop c env (retry + 1) up.2

/-- `wifi_qsap_start_softap()`: qsap.c lines 369-392. -/
def wifi_qsap_start_softap (c : Header) (env : Env) (t : Trace) : Int × Trace :=
  start_softap_loop c env 4 (t ++ [.enter "wifi_qsap_start_softap"])

/-- Lines 349-356 of `commit()`: whether `commit` returns at line 353, and the trace
at that return or on arrival at line 358. -/
def commit_stop (c : Header) (env : Env) (t : Trace) : Bool × Trace :=
  let up := is_softap_enabled c env t
  if up.1 ≠ 0 then
    let bss := wifi_qsap_stop_bss c env up.2
    if c.eSUCCESS ≠ bss.1 then (true, bss.2) else (false, bss.2 ++ [.sleep 1])
  else (false, up.2)

/-- `commit()`: qsap.c lines 344-367. -/
def commit (c : Header) (env : Env) (t : Trace) : Int × Trace :=
  let stop := commit_stop c env t
  if stop.1 then (c.eERR_COMMIT, stop.2)
  else
    let start := wifi_qsap_start_softap c env stop.2
    if c.eSUCCESS ≠ start.1 then (start.1, (wifi_qsap_unload_driver env start.2).2)
    else (start.1, start.2)

/-- `wifi_qsap_stop_softap()`: qsap.c lines 394-408. -/
def wifi_qsap_stop_softap (c : Header) (env : Env) (t : Trace) : Int × Trace :=
  let t0 := t ++ [.enter "wifi_qsap_stop_softap"]
  let up := is_softap_enabled c env t0
  if up.1 ≠ 0 then
    let bss := wifi_qsap_stop_bss c env up.2
    if c.eSUCCESS ≠ bss.1 then (c.eERR_STOP_SAP, bss.2)
    else (c.eSUCCESS, bss.2 ++ [.sleep 1])
  else (c.eSUCCESS, up.2)

/-- `wifi_qsap_reload_softap()`: qsap.c lines 410-437. -/
def wifi_qsap_reload_softap (c : Header) (env : Env) (t : Trace) : Int × Trace :=
  let stop := wifi_qsap_stop_softap c env t
  if c.eSUCCESS ≠ stop.1 then (c.eERR_RELOAD_SAP, stop.2)
  else
    let unload := wifi_qsap_unload_driver env stop.2
    if c.eSUCCESS ≠ unload.1 then (c.eERR_RELOAD_SAP, unload.2)
    else
      let load := wifi_qsap_load_driver env (unload.2 ++ [.usleep 500000])
      if c.eSUCCESS ≠ load.1 then (c.eERR_RELOAD_SAP, load.2)
      else
        let start := wifi_qsap_start_softap c env (load.2 ++ [.sleep 1])
        if c.eSUCCESS ≠ start.1 then
          (c.eERR_RELOAD_SAP, (wifi_qsap_unload_driver env start.2).2)
        else (c.eSUCCESS, start.2)

/-! ## Sample inputs -/

/-- A sample assignment of the header's constants: success and `DISABLE` are 0, the
error codes are distinct and positive. -/
def sampleHeader : Header where
  eSUCCESS := 0
  eERR_STOP_BSS := 1
  eERR_START_SAP := 2
  eERR_STOP_SAP := 3
  eERR_RELOAD_SAP := 4
  eERR_COMMIT := 5
  ENABLE := 1
  DISABLE := 0
  CONFIG_FILE := "/data/hostapd/hostapd.conf"

/-- An environment in which nothing is loaded and every call succeeds; the service
is reported running once a start trigger has been accepted. -/
def envIdle : Env where
  system := fun _ _ => 0
  fopen := fun _ _ => some []
  load_file := fun _ _ => some ['E', 'L', 'F']
  init_module := fun _ _ _ _ => 0
  delete_module := fun _ _ _ => (0, 0)
  property_get := fun t _ =>
    if Event.property_set "ctl.start" "hostapd" 0 ∈ t then (7, "running") else (0, "")
  property_set := fun _ _ _ => 0
  qsap_get_config_value := fun _ _ _ => some "wlan0"
  socket := fun _ _ _ _ => 3
  ioctl := fun _ _ _ _ _ => 0

/-- As `envIdle`, but the main wifi module is loaded and held: every removal is
rejected with `EBUSY` (16). -/
def envHeld : Env :=
  { envIdle with
    fopen := fun _ _ => some "wlan 203981 0 - Live 0x00000000\n".toList
    delete_module := fun _ _ _ => (-1, 16) }

/-! ## Reading traces -/

/-- The results of the start triggers `property_set("ctl.start", "hostapd")` among
the events, in order. -/
def startTriggers (es : Trace) : List Int :=
  es.filterMap fun e =>
    match e with
    | .property_set key value ret =>
      if key = "ctl.start" ∧ value = "hostapd" then some ret else none
    | _ => none

/-- The arguments of the `sleep` calls among the events, in order. -/
def sleepSeconds (es : Trace) : List Nat :=
  es.filterMap fun e =>
    match e with
    | .sleep sec => some sec
    | _ => none

/-- The module names of the `delete_module` calls among the events, in order. -/
def deleteCalls (es : Trace) : List String :=
  es.filterMap fun e =>
    match e with
    | .delete_module name _ _ _ => some name
    | _ => none

/-- An environment in which the start trigger is refused and the service is never
reported running. -/
def envRefused : Env :=
  { envIdle with
    property_get := fun _ _ => (0, "")
    property_set := fun _ _ _ => -1 }

/-- An environment in which the start trigger is accepted but the service is never
reported running. -/
def envDown : Env :=
  { envIdle with property_get := fun _ _ => (0, "") }

/-- An environment in which every module is loaded and every removal fails with
`EAGAIN`. -/
def envAgain : Env :=
  { envIdle with
    fopen := fun _ _ => some "wlan 203981 0 - Live 0x00000000\nlibrasdioif 50000 1 wlan, Live 0x00000000\n".toList
    delete_module := fun _ _ _ => (-1, EAGAIN) }

/-- How often the function `fn` is entered among the events. -/
def entries (fn : String) (es : Trace) : Nat := es.count (.enter fn)

/-- `Emits P t u`: the trace `u` is `t` followed by events that all satisfy `P`. -/
def Emits (P : Event → Prop) (t u : Trace) : Prop :=
  ∃ es, u = t ++ es ∧ ∀ e ∈ es, P e

/-- The events of a load probe. -/
def Event.isProbe : Event → Bool
  | .fopen _ _ => true
  | .fclose => true
  | _ => false

/-- The events of a module removal with its retries. -/
def Event.isRemoval : Event → Bool
  | .delete_module _ _ _ _ => true
  | .usleep _ => true
  | _ => false

/-- The events of a module insertion, the load probe apart. -/
def Event.isInsertion : Event → Bool
  | .load_file _ _ => true
  | .init_module _ _ _ _ => true
  | .free => true
  | _ => false

/-- A call of `system`. -/
def Event.isSystem : Event → Bool
  | .system _ _ => true
  | _ => false

/-- An event is an entry into one of the listed functions, or no entry at all. -/
def OnlyEnters (fns : List String) (e : Event) : Prop :=
  ∀ fn, e = .enter fn → fn ∈ fns

/-- The content of a registry with the given lines: every line is followed by a
newline. -/
def registry : List (List Char) → List Char
  | [] => []
  | line :: lines => line ++ '\n' :: registry lines

/-- A registry line of 156 characters: 125 times `x`, then text that begins with
`wlan `. -/
def longLine : List Char :=
  List.replicate 125 'x' ++ "wlan 203981 0 - Live 0x00000000".toList

/-- As `envIdle`, but the registry is the single line `longLine`. -/
def envLongLine : Env :=
  { envIdle with fopen := fun _ _ => some (registry [longLine]) }

/-- As `envIdle`, but both modules are in the registry. -/
def envLoaded : Env :=
  { envIdle with
    fopen := fun _ _ => some (registry
      ["wlan 203981 0 - Live 0x00000000".toList,
       "librasdioif 50000 1 wlan, Live 0x00000000".toList]) }

/-- As `envIdle`, but the service is reported running from the start. -/
def envRunning : Env :=
  { envIdle with property_get := fun _ _ => (7, "running") }

/-- As `envRunning`, but the configuration has no interface name. -/
def envNoInterface : Env :=
  { envRunning with qsap_get_config_value := fun _ _ _ => none }

/-- The result codes of the orchestrator. -/
def resultCodes (c : Header) : List Int :=
  [c.eSUCCESS, c.eERR_STOP_BSS, c.eERR_START_SAP, c.eERR_STOP_SAP, c.eERR_RELOAD_SAP,
    c.eERR_COMMIT]

/-- As `envIdle`, but no module image can be read. -/
def envNoImage : Env :=
  { envIdle with load_file := fun _ _ => none }

/-- As `envIdle`, but the kernel rejects every insertion with the result `ret`. -/
def envRejected (ret : Int) : Env :=
  { envIdle with init_module := fun _ _ _ _ => ret }

/-- One step of the polling guard read off the trace.  The state says whether polling
is on.  The polling commands set it; an insertion or removal (`init_module`,
`delete_module`) is only in order while polling is on, and `none` marks one
that is not; every other event leaves the state as it is. -/
def guard_step (polling : Bool) : Event → Option Bool
  | .system cmd _ =>
    if cmd = SDIO_POLLING_ON then some true
    else if cmd = SDIO_POLLING_OFF then some false
    else some polling
  | .init_module _ _ _ _ => if polling then some true else none
  | .delete_module _ _ _ _ => if polling then some true else none
  | _ => some polling

/-- The polling guard run over a list of events, from the given state. -/
def guard_run : Bool → List Event → Option Bool
  | polling, [] => some polling
  | polling, e :: es =>
    match guard_step polling e with
    | none => none
    | some next => guard_run next es

/-- The commands of the `system` calls among the events, in order. -/
def systemCommands (es : Trace) : List String :=
  es.filterMap fun e =>
    match e with
    | .system cmd _ => some cmd
    | _ => none

/-- `Guarded a b t u`: the trace `u` is `t` followed by events over which the polling
guard goes from state `a` to state `b`, no insertion or removal out of order. -/
def Guarded (a b : Bool) (t u : Trace) : Prop :=
  ∃ es, u = t ++ es ∧ guard_run a es = some b

/-- `Bracketed t u`: the events that `u` adds to `t` keep every insertion and removal
between a "polling on" and the next "polling off", leave polling off, and have
"polling off" as their last command. -/
def Bracketed (t u : Trace) : Prop :=
  ∃ es, u = t ++ es ∧ guard_run false es = some false ∧
    (systemCommands es).getLast? = some SDIO_POLLING_OFF

/-- As `envIdle`, but the service status reads `Running`, with a capital. -/
def envCapital : Env :=
  { envIdle with property_get := fun _ _ => (7, "Running") }

/-- The trace at which `wifi_qsap_load_driver` calls its first `insmod`: the station
driver has been unloaded and "polling on" has been issued. -/
def load_driver_start (env : Env) (t : Trace) : Trace :=
  (run_system env SDIO_POLLING_ON
    (wifi_qsap_unload_wifi_sta_driver env (t ++ [.enter "wifi_qsap_load_driver"])).2).2

/-- The first `insmod` of `wifi_qsap_load_driver`: the bus-interface module. -/
def load_sdioif (env : Env) (t : Trace) : Int × Trace :=
  insmod env WIFI_SDIO_IF_DRIVER_MODULE_PATH WIFI_SDIO_IF_DRIVER_MODULE_ARG
    (WIFI_SDIO_IF_DRIVER_MODULE_NAME ++ " ") (load_driver_start env t)

/-- The second `insmod` of `wifi_qsap_load_driver`, as it is called once the first has
returned 0: the main wifi module. -/
def load_wlan (env : Env) (t : Trace) : Int × Trace :=
  insmod env WIFI_DRIVER_MODULE_PATH WIFI_DRIVER_MODULE_ARG
    (WIFI_DRIVER_MODULE_NAME ++ " ") ((load_sdioif env t).2 ++ [.sched_yield])

/-- As `envIdle`, but both polling commands fail and every removal is rejected. -/
def envPollingFails : Env :=
  { envIdle with
    system := fun _ _ => 127
    delete_module := fun _ _ _ => (-1, 16) }

/-- The second step of `wifi_qsap_reload_softap`, as it is called once the stop has
succeeded. -/
def reload_unload (c : Header) (env : Env) (t : Trace) : Int × Trace :=
  wifi_qsap_unload_driver env (wifi_qsap_stop_softap c env t).2

/-- The third step of `wifi_qsap_reload_softap`, as it is called once the unload has
succeeded. -/
def reload_load (c : Header) (env : Env) (t : Trace) : Int × Trace :=
  wifi_qsap_load_driver env ((reload_unload c env t).2 ++ [.usleep 500000])

/-- The fourth step of `wifi_qsap_reload_softap`, as it is called once the load has
succeeded. -/
def reload_start (c : Header) (env : Env) (t : Trace) : Int × Trace :=
  wifi_qsap_start_softap c env ((reload_load c env t).2 ++ [.sleep 1])

/-- The steps of the reload pipeline, in order. -/
def pipeline : List String :=
  ["wifi_qsap_stop_softap", "wifi_qsap_unload_driver", "wifi_qsap_load_driver",
    "wifi_qsap_start_softap"]

/-- The pipeline steps entered among the events, in order. -/
def pipelineSteps (es : Trace) : List String :=
  es.filterMap fun e =>
    match e with
    | .enter fn => if fn ∈ pipeline then some fn else none
    | _ => none

/-- `Steps l t u`: the trace `u` is `t` followed by events among which the pipeline
steps `l` are entered, in this order. -/
def Steps (l : List String) (t u : Trace) : Prop :=
  ∃ es, u = t ++ es ∧ pipelineSteps es = l

/-- No status read among the events found the service running. -/
def NoneRunning (es : Trace) : Prop :=
  ∀ key ret value, Event.property_get key ret value ∈ es → ¬ (ret ≠ 0 ∧ value = "running")

/-- As `envIdle`, but the first start trigger is refused. -/
def envSecondTry : Env :=
  { envIdle with
    property_set := fun t _ _ =>
      if Event.property_set "ctl.start" "hostapd" (-1) ∈ t then 0 else -1 }

/-- Every `delete_module` call among the events failed busy: a negative result with
`errno == EAGAIN`. -/
def AllBusy (es : Trace) : Prop :=
  ∀ name flags ret errno, Event.delete_module name flags ret errno ∈ es →
    ret < 0 ∧ errno = EAGAIN

/-- The trace at which `wifi_qsap_unload_driver` takes its first probe: "polling on" has
been issued. -/
def unload_driver_start (env : Env) (t : Trace) : Trace :=
  (run_system env SDIO_POLLING_ON (t ++ [.enter "wifi_qsap_unload_driver"])).2

/-- The first probe of `wifi_qsap_unload_driver`: is the main wifi module loaded? -/
def unload_probe_main (env : Env) (t : Trace) : Int × Trace :=
  check_driver_loaded env (WIFI_DRIVER_MODULE_NAME ++ " ") (unload_driver_start env t)

/-- Lines 257-263 of `wifi_qsap_unload_driver`: the removal of the main wifi module
when the probe found it, with the result of `rmmod` (0 when it is not called). -/
def unload_remove_main (env : Env) (t : Trace) : Int × Trace :=
  if (unload_probe_main env t).1 ≠ 0 then
    rmmod env WIFI_DRIVER_MODULE_NAME (unload_probe_main env t).2
  else (0, (unload_probe_main env t).2)

/-- The second probe of `wifi_qsap_unload_driver`, as it is taken once the main module
is out of the way: is the bus-interface module loaded? -/
def unload_probe_bus (env : Env) (t : Trace) : Int × Trace :=
  check_driver_loaded env (WIFI_SDIO_IF_DRIVER_MODULE_NAME ++ " ")
    ((unload_remove_main env t).2 ++ [.sched_yield])

/-- Lines 267-273 of `wifi_qsap_unload_driver`: the removal of the bus-interface module
when the probe found it. -/
def unload_remove_bus (env : Env) (t : Trace) : Int × Trace :=
  if (unload_probe_bus env t).1 ≠ 0 then
    rmmod env WIFI_SDIO_IF_DRIVER_MODULE_NAME (unload_probe_bus env t).2
  else (0, (unload_probe_bus env t).2)

/-- The number of load probes (`fopen` of the registry) among the events. -/
def probeCalls (es : Trace) : Nat :=
  es.countP fun e =>
    match e with
    | .fopen _ _ => true
    | _ => false

/-- `Removes l k t u`: the trace `u` is `t` followed by events among which the
`delete_module` calls are on the modules `l`, in this order, and `k` load
probes are taken. -/
def Removes (l : List String) (k : Nat) (t u : Trace) : Prop :=
  ∃ es, u = t ++ es ∧ deleteCalls es = l ∧ probeCalls es = k

/-- `Par t t' u u'`: the traces `u` and `u'` are `t` and `t'` followed by the same
events. -/
def Par (t t' u u' : Trace) : Prop :=
  ∃ es, u = t ++ es ∧ u' = t' ++ es

/-- One round of the start loop that does not end the call: the trigger is refused
and nothing follows it, or the trigger is accepted and followed by the
one-second sleep and a status read that does not find the service running. -/
def FailedRound (r : Trace) : Prop :=
  (∃ ret, ret ≠ 0 ∧ r = [.property_set "ctl.start" "hostapd" ret]) ∨
  (∃ ret value, ¬ (ret ≠ 0 ∧ value = "running") ∧
    r = [.property_set "ctl.start" "hostapd" 0, .sleep 1,
      .property_get "init.svc.hostapd" ret value])

/-- The events are `n` failed rounds, one after the other. -/
def FailedRounds : Nat → Trace → Prop
  | 0, es => es = []
  | n + 1, es => ∃ r rest, es = r ++ rest ∧ FailedRound r ∧ FailedRounds n rest

/-- As `envRunning`, where the service is reported running throughout, but every
start trigger is refused. -/
def envRefusedLive : Env :=
  { envRunning with property_set := fun _ _ _ => -1 }

/-- An environment with a registry that follows the removals: the station-mode `wlan`
is in the registry until a `delete_module` on it has returned 0.  Every removal
is answered with `removal`; the kernel accepts the bus-interface module and
rejects the main wifi module (the one loaded with `con_mode=1`) with 7. -/
def envStation (removal : Int × Int) : Env :=
  { envIdle with
    fopen := fun t _ =>
      if Event.delete_module "wlan" (O_NONBLOCK ||| O_EXCL) 0 0 ∈ t then some []
      else some "wlan 203981 0 - Live 0x00000000\n".toList
    delete_module := fun _ _ _ => removal
    init_module := fun _ _ _ args => if args = WIFI_DRIVER_MODULE_ARG then 7 else 0 }

/-- An environment in which the polling commands return `status`, and the kernel
rejects an insertion with 5 unless a "polling on" command has returned 0. -/
def envPolled (status : Int) : Env :=
  { envIdle with
    system := fun _ _ => status
    init_module := fun t _ _ _ =>
      if Event.system SDIO_POLLING_ON 0 ∈ t then 0 else 5 }

/-! ## Theorems -/

/-- C1 (fails on the code): in `envHeld` the removal of `wlan` attempted by the unload
step of `wifi_qsap_reload_softap` is rejected (`delete_module` gives -1, so
`rmmod` gives non-zero), and still the reload goes on: it loads the drivers
(an `init_module` call), triggers `ctl.start`, and returns `eSUCCESS` (0)
instead of `eERR_RELOAD_SAP` (4). -/
theorem reload_continues_after_failed_unload :
    (rmmod envHeld WIFI_DRIVER_MODULE_NAME []).1 ≠ 0 ∧
    wifi_qsap_reload_softap sampleHeader envHeld [] =
      (sampleHeader.eSUCCESS,
       [.enter "wifi_qsap_stop_softap",
        .property_get "init.svc.hostapd" 0 "",
        .enter "wifi_qsap_unload_driver",
        .system "/etc/init.qcom.sdio.sh 1" 0,
        .fopen "/proc/modules" true,
        .fclose,
        .delete_module "wlan" 2176 (-1) 16,
        .system "/etc/init.qcom.sdio.sh 0" 0,
        .usleep 500000,
        .enter "wifi_qsap_load_driver",
        .enter "wifi_qsap_unload_wifi_sta_driver",
        .system "/etc/init.qcom.sdio.sh 1" 0,
        .fopen "/proc/modules" true,
        .fclose,
        .delete_module "wlan" 2176 (-1) 16,
        .system "/etc/init.qcom.sdio.sh 0" 0,
        .sched_yield,
        .system "/etc/init.qcom.sdio.sh 1" 0,
        .fopen "/proc/modules" true,
        .fclose,
        .load_file "/system/lib/modules/librasdioif.ko" true,
        .init_module ['E', 'L', 'F'] 3 "" 0,
        .free,
        .sched_yield,
        .fopen "/proc/modules" true,
        .fclose,
        .sched_yield,
        .system "/etc/init.qcom.sdio.sh 0" 0,
        .sleep 1,
        .enter "wifi_qsap_start_softap",
        .property_set "ctl.start" "hostapd" 0,
        .sleep 1,
        .property_get "init.svc.hostapd" 7 "running"]) := by
  constructor
  · decide
  · rfl

theorem is_softap_enabled_trace (c : Header) (env : Env) (t : Trace) :
    (is_softap_enabled c env t).2 =
      t ++ [.property_get "init.svc.hostapd"
        (env.property_get (external t) "init.svc.hostapd").1
        (env.property_get (external t) "init.svc.hostapd").2] := by
  simp only [is_softap_enabled]
  split_ifs <;> rfl

theorem startTriggers_append (es fs : Trace) :
    startTriggers (es ++ fs) = startTriggers es ++ startTriggers fs := by
  simp [startTriggers]

theorem sleepSeconds_append (es fs : Trace) :
    sleepSeconds (es ++ fs) = sleepSeconds es ++ sleepSeconds fs := by
  simp [sleepSeconds]

theorem startTriggers_trigger (ret : Int) (es : Trace) :
    startTriggers (.property_set "ctl.start" "hostapd" ret :: es) = ret :: startTriggers es := by
  simp [startTriggers]

theorem startTriggers_sleep (sec : Nat) (es : Trace) :
    startTriggers (.sleep sec :: es) = startTriggers es := by
  simp [startTriggers]

theorem startTriggers_property_get (key : String) (ret : Int) (value : String) (es : Trace) :
    startTriggers (.property_get key ret value :: es) = startTriggers es := by
  simp [startTriggers]

theorem sleepSeconds_sleep (sec : Nat) (es : Trace) :
    sleepSeconds (.sleep sec :: es) = sec :: sleepSeconds es := by
  simp [sleepSeconds]

theorem sleepSeconds_property_set (key value : String) (ret : Int) (es : Trace) :
    sleepSeconds (.property_set key value ret :: es) = sleepSeconds es := by
  simp [sleepSeconds]

theorem sleepSeconds_property_get (key : String) (ret : Int) (value : String) (es : Trace) :
    sleepSeconds (.property_get key ret value :: es) = sleepSeconds es := by
  simp [sleepSeconds]

/-- C2 (as stated, fails): in `envRefused` the service is never reported running
and every start trigger is refused with -1; `wifi_qsap_start_softap` makes its 3
trigger calls and returns `eERR_START_SAP` without a single sleep. -/
theorem start_softap_refused_trigger_never_sleeps :
    (∀ u, (is_softap_enabled sampleHeader envRefused u).1 = sampleHeader.DISABLE) ∧
    wifi_qsap_start_softap sampleHeader envRefused [] =
      (sampleHeader.eERR_START_SAP,
       [.enter "wifi_qsap_start_softap",
        .property_set "ctl.start" "hostapd" (-1),
        .property_set "ctl.start" "hostapd" (-1),
        .property_set "ctl.start" "hostapd" (-1)]) ∧
    sleepSeconds (wifi_qsap_start_softap sampleHeader envRefused []).2 = [] := by
  refine ⟨fun u => rfl, rfl, rfl⟩

theorem deleteCalls_delete (name : String) (flags : Nat) (ret errno : Int) (es : Trace) :
    deleteCalls (.delete_module name flags ret errno :: es) = name :: deleteCalls es := by
  simp [deleteCalls]

theorem deleteCalls_usleep (usec : Nat) (es : Trace) :
    deleteCalls (.usleep usec :: es) = deleteCalls es := by
  simp [deleteCalls]

/-- The removal loop under a persistent busy condition: it runs all `maxtry` rounds. -/
theorem rmmod_loop_busy (env : Env) (modname : String)
    (h : ∀ u flags, (env.delete_module u modname flags).1 < 0 ∧
      (env.delete_module u modname flags).2 = EAGAIN)
    (maxtry : Nat) (ret : Int) (t : Trace) :
    ((rmmod_loop env modname maxtry ret t).1 < 0 ∨
      (maxtry = 0 ∧ (rmmod_loop env modname maxtry ret t).1 = ret)) ∧
    ∃ es, (rmmod_loop env modname maxtry ret t).2 = t ++ es ∧
      deleteCalls es = List.replicate maxtry modname := by
  induction maxtry generalizing ret t with
  | zero => exact ⟨Or.inr ⟨rfl, rfl⟩, [], by simp [rmmod_loop], rfl⟩
  | succ n ih =>
    rw [rmmod_loop]
    rw [if_pos (h (external t) (O_NONBLOCK ||| O_EXCL))]
    obtain ⟨hr, es, hes, hdel⟩ := ih
      (env.delete_module (external t) modname (O_NONBLOCK ||| O_EXCL)).1
      (t ++ [.delete_module modname (O_NONBLOCK ||| O_EXCL)
        (env.delete_module (external t) modname (O_NONBLOCK ||| O_EXCL)).1
        (env.delete_module (external t) modname (O_NONBLOCK ||| O_EXCL)).2] ++ [.usleep 50000])
    refine ⟨Or.inl ?_, _, by rw [hes]; simp only [List.append_assoc, List.singleton_append]; rfl,
      ?_⟩
    · rcases hr with hr | ⟨_, hr⟩
      · exact hr
      · rw [hr]; exact (h _ _).1
    · simp [deleteCalls_delete, deleteCalls_usleep, hdel, List.replicate_succ]

/-- C3: when every `delete_module` call on the module fails with the busy error (a
negative result with `errno == EAGAIN`), `rmmod` calls `delete_module` exactly 10
times, each time on that module, and returns a non-zero result. -/
theorem rmmod_busy_ten_tries (env : Env) (modname : String) (t : Trace)
    (h : ∀ u flags, (env.delete_module u modname flags).1 < 0 ∧
      (env.delete_module u modname flags).2 = EAGAIN) :
    (rmmod env modname t).1 ≠ 0 ∧
    ∃ es, (rmmod env modname t).2 = t ++ es ∧
      deleteCalls es = List.replicate 10 modname := by
  obtain ⟨hr, hes⟩ := rmmod_loop_busy env modname h 10 0 t
  refine ⟨?_, hes⟩
  rcases hr with hr | ⟨h0, _⟩
  · exact ne_of_lt hr
  · exact absurd h0 (by decide)

/-- C3 at `envAgain`, removing `wlan`. -/
theorem rmmod_busy_ten_tries_witness :
    (rmmod envAgain "wlan" []).1 ≠ 0 ∧
    ∃ es, (rmmod envAgain "wlan" []).2 = [] ++ es ∧
      deleteCalls es = List.replicate 10 "wlan" :=
  rmmod_busy_ten_tries envAgain "wlan" [] (fun _ _ => ⟨show (-1 : Int) < 0 by decide, rfl⟩)

/-! ### Traces only grow -/

theorem Emits.refl (P : Event → Prop) (t : Trace) : Emits P t t :=
  ⟨[], by simp, by simp⟩

theorem Emits.trans {P : Event → Prop} {t u v : Trace} (h1 : Emits P t u) (h2 : Emits P u v) :
    Emits P t v := by
  obtain ⟨es, rfl, hes⟩ := h1
  obtain ⟨fs, rfl, hfs⟩ := h2
  refine ⟨es ++ fs, by simp, ?_⟩
  intro e he
  rcases List.mem_append.1 he with h | h
  · exact hes e h
  · exact hfs e h

theorem Emits.snoc {P : Event → Prop} {t u : Trace} (h : Emits P t u) {e : Event} (he : P e) :
    Emits P t (u ++ [e]) :=
  h.trans ⟨[e], rfl, by simpa using he⟩

theorem Emits.mono {P Q : Event → Prop} {t u : Trace} (h : Emits P t u)
    (hPQ : ∀ e, P e → Q e) : Emits Q t u := by
  obtain ⟨es, rfl, hes⟩ := h
  exact ⟨es, rfl, fun e he => hPQ e (hes e he)⟩

theorem onlyEnters_of_external {e : Event} (h : e.isEnter = false) (fns : List String) :
    OnlyEnters fns e := by
  intro fn hfn
  rw [hfn] at h
  cases h

theorem entries_eq_zero {fns : List String} {es : Trace} (h : ∀ e ∈ es, OnlyEnters fns e)
    {fn : String} (hfn : fn ∉ fns) : entries fn es = 0 := by
  rw [entries, List.count_eq_zero]
  intro hmem
  exact hfn (h _ hmem fn rfl)

theorem entries_append (fn : String) (es fs : Trace) :
    entries fn (es ++ fs) = entries fn es + entries fn fs := by
  simp [entries]

theorem Emits.snoc2 {P : Event → Prop} {t u : Trace} (h : Emits P t u) {a b : Event}
    (ha : P a) (hb : P b) : Emits P t (u ++ [a, b]) :=
  h.trans ⟨[a, b], rfl, by simp [ha, hb]⟩

theorem check_driver_loaded_emits {P : Event → Prop} (hprobe : ∀ e, e.isProbe = true → P e)
    (env : Env) (tag : String) (t : Trace) :
    Emits P t (check_driver_loaded env tag t).2 := by
  unfold check_driver_loaded
  split
  · exact (Emits.refl _ t).snoc (hprobe _ rfl)
  · exact (Emits.refl _ t).snoc2 (hprobe _ rfl) (hprobe _ rfl)

theorem rmmod_loop_emits {P : Event → Prop} (hrem : ∀ e, e.isRemoval = true → P e)
    (env : Env) (modname : String) (maxtry : Nat) (ret : Int) (t : Trace) :
    Emits P t (rmmod_loop env modname maxtry ret t).2 := by
  induction maxtry generalizing ret t with
  | zero => exact Emits.refl _ t
  | succ n ih =>
    rw [rmmod_loop]
    split_ifs
    · refine Emits.trans ?_ (ih _ _)
      refine Emits.snoc (Emits.snoc (Emits.refl _ t) (hrem _ ?_)) (hrem _ ?_) <;> rfl
    · exact (Emits.refl _ t).snoc (hrem _ rfl)

theorem rmmod_emits {P : Event → Prop} (hrem : ∀ e, e.isRemoval = true → P e)
    (env : Env) (modname : String) (t : Trace) :
    Emits P t (rmmod env modname t).2 :=
  rmmod_loop_emits hrem env modname 10 0 t

theorem insmod_emits {P : Event → Prop} (hprobe : ∀ e, e.isProbe = true → P e)
    (hins : ∀ e, e.isInsertion = true → P e)
    (env : Env) (filename args tag : String) (t : Trace) :
    Emits P t (insmod env filename args tag t).2 := by
  have hp := check_driver_loaded_emits hprobe env tag t
  unfold insmod
  simp only []
  split_ifs
  · exact hp
  · split
    · exact hp.snoc (hins _ rfl)
    · refine Emits.snoc2 (Emits.snoc hp (hins _ ?_)) (hins _ ?_) (hins _ ?_) <;> rfl

theorem run_system_emits {P : Event → Prop} (hsys : ∀ e, e.isSystem = true → P e)
    (env : Env) (cmd : String) (t : Trace) :
    Emits P t (run_system env cmd t).2 :=
  (Emits.refl _ t).snoc (hsys _ rfl)

/-- One step of the unload functions: the probe, and the removal when the probe
finds the module. -/
theorem unload_step_emits {P : Event → Prop} (hprobe : ∀ e, e.isProbe = true → P e)
    (hrem : ∀ e, e.isRemoval = true → P e) (env : Env) (tag name : String) (t : Trace) :
    Emits P t (if (check_driver_loaded env tag t).1 ≠ 0
      then rmmod env name (check_driver_loaded env tag t).2
      else (0, (check_driver_loaded env tag t).2)).2 := by
  split_ifs
  · exact (check_driver_loaded_emits hprobe env tag t).trans (rmmod_emits hrem env name _)
  · exact check_driver_loaded_emits hprobe env tag t

theorem unload_modules_emits {P : Event → Prop} (hprobe : ∀ e, e.isProbe = true → P e)
    (hrem : ∀ e, e.isRemoval = true → P e) (hyield : P .sched_yield)
    (env : Env) (t : Trace) :
    Emits P t (unload_modules env t).2 := by
  have key : ∀ r1 : Int × Trace, Emits P t r1.2 →
      ∀ r2 : Int × Trace, Emits P (r1.2 ++ [.sched_yield]) r2.2 →
      Emits P t (if r1.1 ≠ 0 then ((1 : Int), r1.2)
        else if r2.1 ≠ 0 then (1, r2.2) else (0, r2.2)).2 := by
    intro r1 h1 r2 h2
    split_ifs
    · exact h1
    · exact (h1.snoc hyield).trans h2
    · exact (h1.snoc hyield).trans h2
  exact key _ (unload_step_emits hprobe hrem env _ _ t) _
    (unload_step_emits hprobe hrem env _ _ _)

/-! ### What the entry points add to the trace -/

theorem is_softap_enabled_emits {P : Event → Prop} (hext : ∀ e, e.isEnter = false → P e)
    (c : Header) (env : Env) (t : Trace) :
    Emits P t (is_softap_enabled c env t).2 := by
  rw [is_softap_enabled_trace]
  exact (Emits.refl _ t).snoc (hext _ rfl)

theorem wifi_qsap_stop_bss_emits {P : Event → Prop} (hext : ∀ e, e.isEnter = false → P e)
    (c : Header) (env : Env) (t : Trace) :
    Emits P (t ++ [.enter "wifi_qsap_stop_bss"]) (wifi_qsap_stop_bss c env t).2 := by
  unfold wifi_qsap_stop_bss
  simp only []
  split
  · exact (Emits.refl _ _).snoc (hext _ rfl)
  · split_ifs with hsock hret
    · refine Emits.snoc (Emits.snoc (Emits.refl _ _) (hext _ ?_)) (hext _ ?_) <;> rfl
    · exact absurd rfl hret
    · refine Emits.snoc (Emits.snoc (Emits.snoc (Emits.snoc (Emits.snoc (Emits.refl _ _)
        (hext _ ?_)) (hext _ ?_)) (hext _ ?_)) (hext _ ?_)) (hext _ ?_) <;> rfl

theorem start_softap_loop_emits {P : Event → Prop} (hext : ∀ e, e.isEnter = false → P e)
    (c : Header) (env : Env) (retry : Nat) (t : Trace) :
    Emits P t (start_softap_loop c env (retry + 1) t).2 := by
  induction retry generalizing t with
  | zero => exact Emits.refl _ t
  | succ n ih =>
    rw [start_softap_loop]
    simp only []
    have h1 : Emits P t (t ++ [.property_set "ctl.start" "hostapd"
        (env.property_set (external t) "ctl.start" "hostapd")]) :=
      (Emits.refl _ t).snoc (hext _ rfl)
    have h2 := (h1.snoc (e := .sleep 1) (hext _ rfl)).trans
      (is_softap_enabled_emits hext c env _)
    split_ifs
    · exact h1.trans (ih _)
    · exact h2
    · exact h2.trans (ih _)

theorem wifi_qsap_start_softap_emits {P : Event → Prop}
    (hext : ∀ e, e.isEnter = false → P e) (c : Header) (env : Env) (t : Trace) :
    Emits P (t ++ [.enter "wifi_qsap_start_softap"]) (wifi_qsap_start_softap c env t).2 :=
  start_softap_loop_emits hext c env 3 _

theorem wifi_qsap_unload_driver_emits {P : Event → Prop}
    (hext : ∀ e, e.isEnter = false → P e) (env : Env) (t : Trace) :
    Emits P (t ++ [.enter "wifi_qsap_unload_driver"]) (wifi_qsap_unload_driver env t).2 := by
  have hsys : ∀ e : Event, e.isSystem = true → P e := fun e h =>
    hext e (by cases e <;> simp_all [Event.isSystem, Event.isEnter])
  have hprobe : ∀ e : Event, e.isProbe = true → P e := fun e h =>
    hext e (by cases e <;> simp_all [Event.isProbe, Event.isEnter])
  have hrem : ∀ e : Event, e.isRemoval = true → P e := fun e h =>
    hext e (by cases e <;> simp_all [Event.isRemoval, Event.isEnter])
  exact ((run_system_emits hsys env _ _).trans
    (unload_modules_emits hprobe hrem (hext _ rfl) env _)).trans (run_system_emits hsys env _ _)

theorem wifi_qsap_unload_wifi_sta_driver_emits {P : Event → Prop}
    (hext : ∀ e, e.isEnter = false → P e) (env : Env) (t : Trace) :
    Emits P (t ++ [.enter "wifi_qsap_unload_wifi_sta_driver"])
      (wifi_qsap_unload_wifi_sta_driver env t).2 := by
  have hsys : ∀ e : Event, e.isSystem = true → P e := fun e h =>
    hext e (by cases e <;> simp_all [Event.isSystem, Event.isEnter])
  have hprobe : ∀ e : Event, e.isProbe = true → P e := fun e h =>
    hext e (by cases e <;> simp_all [Event.isProbe, Event.isEnter])
  have hrem : ∀ e : Event, e.isRemoval = true → P e := fun e h =>
    hext e (by cases e <;> simp_all [Event.isRemoval, Event.isEnter])
  exact (((run_system_emits hsys env _ _).trans
    (unload_modules_emits hprobe hrem (hext _ rfl) env _)).trans
      (run_system_emits hsys env _ _)).snoc (hext _ rfl)

theorem commit_stop_emits {P : Event → Prop} (hext : ∀ e, e.isEnter = false → P e)
    (hbss : P (.enter "wifi_qsap_stop_bss")) (c : Header) (env : Env) (t : Trace) :
    Emits P t (commit_stop c env t).2 := by
  have h1 := is_softap_enabled_emits hext c env t
  have h2 := (h1.snoc hbss).trans (wifi_qsap_stop_bss_emits hext c env _)
  unfold commit_stop
  simp only []
  split_ifs
  · exact h2
  · exact h2.snoc (hext _ rfl)
  · exact h1

theorem start_softap_loop_result (c : Header) (env : Env) (retry : Nat) (t : Trace) :
    (start_softap_loop c env retry t).1 = c.eSUCCESS ∨
    (start_softap_loop c env retry t).1 = c.eERR_START_SAP := by
  induction retry using Nat.strong_induction_on generalizing t with
  | _ n ih =>
    match n with
    | 0 => exact Or.inr rfl
    | 1 => exact Or.inr rfl
    | k + 2 =>
      rw [start_softap_loop]
      simp only []
      split_ifs
      · exact ih (k + 1) (by omega) _
      · exact Or.inl rfl
      · exact ih (k + 1) (by omega) _

theorem wifi_qsap_start_softap_result (c : Header) (env : Env) (t : Trace) :
    (wifi_qsap_start_softap c env t).1 = c.eSUCCESS ∨
    (wifi_qsap_start_softap c env t).1 = c.eERR_START_SAP :=
  start_softap_loop_result c env 4 _

/-- C4: when `commit` arrives at its call of `wifi_qsap_start_softap` (with trace
`t1`), then up to the end of the start no `wifi_qsap_unload_driver` has been
entered; if the start fails, `commit` returns `eERR_START_SAP` and enters
`wifi_qsap_unload_driver` exactly once, right after the start; if the start
succeeds, `commit` returns `eSUCCESS` and the start's last event is its last. -/
theorem commit_unloads_once_after_failed_start (c : Header) (env : Env) (t t1 : Trace)
    (hreach : commit_stop c env t = (false, t1)) :
    ∃ pre, (wifi_qsap_start_softap c env t1).2 = t ++ pre ∧
      entries "wifi_qsap_unload_driver" pre = 0 ∧
      ((wifi_qsap_start_softap c env t1).1 ≠ c.eSUCCESS →
        (commit c env t).1 = c.eERR_START_SAP ∧
        ∃ es, (commit c env t).2 = t ++ pre ++ .enter "wifi_qsap_unload_driver" :: es ∧
          entries "wifi_qsap_unload_driver" es = 0) ∧
      ((wifi_qsap_start_softap c env t1).1 = c.eSUCCESS →
        commit c env t = (c.eSUCCESS, t ++ pre)) := by
  have hext : ∀ fns (e : Event), e.isEnter = false → OnlyEnters fns e :=
    fun fns e h => onlyEnters_of_external h fns
  have h1 : Emits (OnlyEnters ["wifi_qsap_stop_bss", "wifi_qsap_start_softap"]) t t1 := by
    have := commit_stop_emits (P := OnlyEnters ["wifi_qsap_stop_bss", "wifi_qsap_start_softap"])
      (hext _) (by intro fn h; cases h; simp) c env t
    rwa [hreach] at this
  have h2 := (h1.snoc (e := .enter "wifi_qsap_start_softap") (by intro fn h; cases h; simp)).trans
    (wifi_qsap_start_softap_emits (hext _) c env t1)
  obtain ⟨pre, hpre, hpreP⟩ := h2
  obtain ⟨es, hes, hesP⟩ := wifi_qsap_unload_driver_emits (hext [])
    env (wifi_qsap_start_softap c env t1).2
  have hcommit : commit c env t =
      if c.eSUCCESS ≠ (wifi_qsap_start_softap c env t1).1 then
        ((wifi_qsap_start_softap c env t1).1,
          (wifi_qsap_unload_driver env (wifi_qsap_start_softap c env t1).2).2)
      else ((wifi_qsap_start_softap c env t1).1, (wifi_qsap_start_softap c env t1).2) := by
    simp [commit, hreach]
  refine ⟨pre, hpre, entries_eq_zero hpreP (by decide), ?_, ?_⟩
  · intro hfail
    rw [hcommit, if_pos (Ne.symm hfail)]
    refine ⟨?_, es, ?_, entries_eq_zero hesP (by decide)⟩
    · rcases wifi_qsap_start_softap_result c env t1 with h | h
      · exact absurd h hfail
      · exact h
    · show (wifi_qsap_unload_driver env (wifi_qsap_start_softap c env t1).2).2 = _
      rw [hes, hpre]
      simp only [List.append_assoc, List.singleton_append]
  · intro hok
    rw [hcommit, if_neg (by simp [hok]), hok, hpre]

/-- C4 at `envDown`, where the service is down and stays down (the start fails), and
at `envIdle`, where the start succeeds. -/
theorem commit_unloads_once_after_failed_start_witness :
    ((commit sampleHeader envDown []).1 = sampleHeader.eERR_START_SAP ∧
      ∃ pre es, (commit sampleHeader envDown []).2 =
          [] ++ pre ++ .enter "wifi_qsap_unload_driver" :: es ∧
        entries "wifi_qsap_unload_driver" pre = 0 ∧
        entries "wifi_qsap_unload_driver" es = 0) ∧
    ∃ pre, commit sampleHeader envIdle [] = (sampleHeader.eSUCCESS, [] ++ pre) ∧
      entries "wifi_qsap_unload_driver" pre = 0 := by
  obtain ⟨pre, _, hpre, hfail, _⟩ := commit_unloads_once_after_failed_start sampleHeader
    envDown [] [.property_get "init.svc.hostapd" 0 ""] rfl
  obtain ⟨pre', _, hpre', _, hok⟩ := commit_unloads_once_after_failed_start sampleHeader
    envIdle [] [.property_get "init.svc.hostapd" 0 ""] rfl
  obtain ⟨hret, es, hes, hzero⟩ := hfail (by decide)
  exact ⟨⟨hret, pre, es, hes, hpre, hzero⟩, pre', hok rfl, hpre'⟩

/-! ### The load probe -/

theorem strlen_of_no_nul (tag : List Char) (h : NUL ∉ tag) : strlen tag = tag.length := by
  unfold strlen
  congr 1
  rw [List.takeWhile_eq_self_iff]
  intro c hc
  simp only [ne_eq, decide_eq_true_eq]
  rintro rfl
  exact h hc

/-- On a tag without NUL, `strncmp(line, tag, strlen(tag)) == 0` says that the line
begins with the tag. -/
theorem strncmp_eq_iff (tag : List Char) (h : NUL ∉ tag) (line : List Char) :
    strncmp_eq line tag tag.length = true ↔ tag <+: line := by
  induction tag generalizing line with
  | nil => simp [strncmp_eq]
  | cons c cs ih =>
    have hc : c ≠ NUL := fun hc => h (by simp [hc])
    have hcs : NUL ∉ cs := fun hcs => h (List.mem_cons_of_mem _ hcs)
    cases line with
    | nil => simp [strncmp_eq, Ne.symm hc]
    | cons d ds =>
      by_cases hd : d = c
      · subst hd
        simp [strncmp_eq, hc, ih hcs, List.cons_prefix_cons]
      · simp only [strncmp_eq, List.length_cons, List.headD_cons, ne_eq, hd, not_false_eq_true,
          if_true, List.cons_prefix_cons, false_and, Bool.false_eq_true]
        exact ⟨False.elim, fun h => hd h.1.symm⟩

/-- A line that fits into the buffer is read whole, with its newline. -/
theorem fgets_read_line (l rest : List Char) (room : Nat) (hnl : '\n' ∉ l)
    (hlen : l.length < room) :
    fgets_read room (l ++ '\n' :: rest) = (l ++ ['\n'], rest) := by
  induction l generalizing room with
  | nil =>
    obtain ⟨k, rfl⟩ : ∃ k, room = k + 1 := ⟨room - 1, by simp at hlen; omega⟩
    simp [fgets_read]
  | cons c cs ih =>
    obtain ⟨k, rfl⟩ : ∃ k, room = k + 1 := ⟨room - 1, by simp at hlen; omega⟩
    have hc : c ≠ '\n' := fun hc => hnl (by simp [hc])
    have hcs : '\n' ∉ cs := fun hcs => hnl (List.mem_cons_of_mem _ hcs)
    have := ih k hcs (by simp at hlen; omega)
    simp [fgets_read, hc, this]

theorem registry_length_cons (l : List Char) (ls : List (List Char)) :
    (registry (l :: ls)).length = l.length + 1 + (registry ls).length := by
  simp [registry]
  omega

/-- The scan over a registry whose lines fit into the buffer. -/
theorem check_driver_loaded_loop_lines (tag : List Char) (hnul : NUL ∉ tag)
    (lines : List (List Char)) (hlines : ∀ l ∈ lines, '\n' ∉ l ∧ l.length < 125)
    (fuel : Nat) (hfuel : (registry lines).length ≤ fuel) :
    check_driver_loaded_loop tag fuel (registry lines) =
      if ∃ l ∈ lines, tag <+: l ++ ['\n'] then 1 else 0 := by
  induction lines generalizing fuel with
  | nil => cases fuel <;> simp [check_driver_loaded_loop, registry, fgets]
  | cons l ls ih =>
    rw [registry_length_cons] at hfuel
    obtain ⟨f, rfl⟩ : ∃ f, fuel = f + 1 := ⟨fuel - 1, by omega⟩
    have hl := hlines l (by simp)
    have hread : fgets 126 (registry (l :: ls)) = some (l ++ ['\n'], registry ls) := by
      cases l with
      | nil => simp [registry, fgets, fgets_read]
      | cons c cs =>
        have := fgets_read_line (c :: cs) (registry ls) 125 hl.1 hl.2
        simpa [registry, fgets] using this
    rw [check_driver_loaded_loop, hread]
    simp only [strlen_of_no_nul tag hnul]
    by_cases hmatch : tag <+: l ++ ['\n']
    · rw [if_pos ((strncmp_eq_iff tag hnul _).2 hmatch), if_pos ⟨l, by simp, hmatch⟩]
    · rw [if_neg (fun h => hmatch ((strncmp_eq_iff tag hnul _).1 h)),
        ih (fun l hl => hlines l (by simp [hl])) f (by omega)]
      simp [hmatch]

theorem fgets_read_rest_length (room : Nat) (s : List Char) :
    (fgets_read room s).2.length ≤ s.length := by
  induction s generalizing room with
  | nil => cases room <;> simp [fgets_read]
  | cons c cs ih =>
    cases room with
    | zero => simp [fgets_read]
    | succ k =>
      simp only [fgets_read]
      split_ifs
      · simp
      · exact Nat.le_succ_of_le (ih k)

/-- The fuel of the scan is of no account once it reaches the length of the stream:
the scan ends because the stream does, never because the fuel does. -/
theorem check_driver_loaded_loop_fuel (tag : List Char) (fuel : Nat) (stream : List Char)
    (h : stream.length ≤ fuel) :
    check_driver_loaded_loop tag fuel stream =
      check_driver_loaded_loop tag stream.length stream := by
  induction fuel using Nat.strong_induction_on generalizing stream with
  | _ fuel ih =>
    cases stream with
    | nil => cases fuel <;> simp [check_driver_loaded_loop, fgets]
    | cons c cs =>
      obtain ⟨f, rfl⟩ : ∃ f, fuel = f + 1 := ⟨fuel - 1, by simp at h; omega⟩
      have hrest : (fgets_read (126 - 1) (c :: cs)).2.length ≤ cs.length := by
        show (fgets_read (124 + 1) (c :: cs)).2.length ≤ cs.length
        simp only [fgets_read]
        split_ifs
        · simp
        · exact fgets_read_rest_length 124 cs
      simp only [List.length_cons, check_driver_loaded_loop, fgets]
      split_ifs
      · rfl
      · simp only [List.length_cons, Nat.succ_le_succ_iff] at h
        rw [ih f (by omega) _ (by omega), ih cs.length (by omega) _ hrest]

/-- C5 (amended): for a tag without NUL and a registry of newline-terminated lines of
at most 125 characters each (the newline counted), `check_driver_loaded(tag)`
returns 1 if some line begins with the tag and 0 if none does; and it returns 0
when the registry cannot be opened. -/
theorem check_driver_loaded_short_lines (env : Env) (tag : String) (t : Trace)
    (lines : List (List Char)) (hnul : NUL ∉ tag.toList)
    (hlines : ∀ l ∈ lines, '\n' ∉ l ∧ l.length < 125)
    (hopen : env.fopen (external t) "/proc/modules" = some (registry lines)) :
    ((check_driver_loaded env tag t).1 = 1 ↔ ∃ l ∈ lines, tag.toList <+: l ++ ['\n']) ∧
    ((check_driver_loaded env tag t).1 = 0 ↔ ¬ ∃ l ∈ lines, tag.toList <+: l ++ ['\n']) ∧
    (check_driver_loaded { env with fopen := fun _ _ => none } tag t).1 = 0 := by
  have := check_driver_loaded_loop_lines tag.toList hnul lines hlines _ (le_refl _)
  simp only [check_driver_loaded, hopen, this]
  by_cases h : ∃ l ∈ lines, tag.toList <+: l ++ ['\n']
  · rw [if_pos h]
    exact ⟨⟨fun _ => h, fun _ => rfl⟩, ⟨fun h0 => absurd h0 (by decide), fun hn => absurd h hn⟩,
      trivial⟩
  · rw [if_neg h]
    exact ⟨⟨fun h0 => absurd h0 (by decide), fun hp => absurd hp h⟩, ⟨fun _ => h, fun _ => rfl⟩,
      trivial⟩

/-- C5 (amended) at `envLoaded` and the tag `wlan `. -/
theorem check_driver_loaded_short_lines_witness :
    ((check_driver_loaded envLoaded "wlan " []).1 = 1 ↔
      ∃ l ∈ ["wlan 203981 0 - Live 0x00000000".toList,
        "librasdioif 50000 1 wlan, Live 0x00000000".toList], "wlan ".toList <+: l ++ ['\n']) ∧
    ((check_driver_loaded envLoaded "wlan " []).1 = 0 ↔
      ¬ ∃ l ∈ ["wlan 203981 0 - Live 0x00000000".toList,
        "librasdioif 50000 1 wlan, Live 0x00000000".toList], "wlan ".toList <+: l ++ ['\n']) ∧
    (check_driver_loaded { envLoaded with fopen := fun _ _ => none } "wlan " []).1 = 0 :=
  check_driver_loaded_short_lines envLoaded "wlan " [] _ (by decide) (by decide) rfl

/-- C5 (as stated, fails): the registry of `envLongLine` is one newline-terminated
line of 156 characters that does not begin with `wlan `, and yet
`check_driver_loaded("wlan ")` returns 1: `fgets` delivers the line in two
pieces, and the second piece begins with `wlan `. -/
theorem check_driver_loaded_long_line :
    envLongLine.fopen (external []) "/proc/modules" = some (registry [longLine]) ∧
    '\n' ∉ longLine ∧
    ¬ (∃ l ∈ [longLine], "wlan ".toList <+: l ++ ['\n']) ∧
    (check_driver_loaded envLongLine "wlan " []).1 = 1 := by
  refine ⟨rfl, by simp [longLine], ?_, ?_⟩
  swap
  · set_option maxRecDepth 100000 in rfl
  simp [longLine, List.replicate, List.cons_prefix_cons]

/-! ### Idempotence and the stop path -/

/-- C6: when `check_driver_loaded(tag)` is true at the call, `insmod` returns 0 and adds
nothing to the trace but the probe (no `load_file`, no `init_module`); so of two
consecutive `insmod` calls on a tag that is loaded at both, each returns 0, and
all they add to the trace are the events of their probes. -/
theorem insmod_already_loaded (env : Env) (filename args tag : String) (t : Trace)
    (h1 : (check_driver_loaded env tag t).1 ≠ 0)
    (h2 : (check_driver_loaded env tag (insmod env filename args tag t).2).1 ≠ 0) :
    insmod env filename args tag t = (0, (check_driver_loaded env tag t).2) ∧
    (insmod env filename args tag (insmod env filename args tag t).2).1 = 0 ∧
    ∃ es, (insmod env filename args tag (insmod env filename args tag t).2).2 = t ++ es ∧
      ∀ e ∈ es, e.isProbe = true ∧ e.isInsertion = false := by
  have hfirst : insmod env filename args tag t = (0, (check_driver_loaded env tag t).2) := by
    simp only [insmod, if_pos h1]
  have hsecond : insmod env filename args tag (insmod env filename args tag t).2 =
      (0, (check_driver_loaded env tag (insmod env filename args tag t).2).2) := by
    rw [insmod]
    simp only [if_pos h2]
  have hP : ∀ e : Event, e.isProbe = true → e.isProbe = true ∧ e.isInsertion = false :=
    fun e h => ⟨h, by cases e <;> simp_all [Event.isProbe, Event.isInsertion]⟩
  refine ⟨hfirst, by rw [hsecond], ?_⟩
  have e1 := check_driver_loaded_emits hP env tag t
  have e2 := check_driver_loaded_emits hP env tag (insmod env filename args tag t).2
  have hfst : (insmod env filename args tag t).2 = (check_driver_loaded env tag t).2 := by
    rw [hfirst]
  rw [hsecond]
  rw [hfst] at e2 ⊢
  exact e1.trans e2

/-- C6 at `envLoaded`: loading `wlan.ko` twice while `wlan` is in the registry. -/
theorem insmod_already_loaded_witness :
    insmod envLoaded WIFI_DRIVER_MODULE_PATH WIFI_DRIVER_MODULE_ARG "wlan " [] =
      (0, (check_driver_loaded envLoaded "wlan " []).2) ∧
    (insmod envLoaded WIFI_DRIVER_MODULE_PATH WIFI_DRIVER_MODULE_ARG "wlan "
      (insmod envLoaded WIFI_DRIVER_MODULE_PATH WIFI_DRIVER_MODULE_ARG "wlan " []).2).1 = 0 ∧
    ∃ es, (insmod envLoaded WIFI_DRIVER_MODULE_PATH WIFI_DRIVER_MODULE_ARG "wlan "
        (insmod envLoaded WIFI_DRIVER_MODULE_PATH WIFI_DRIVER_MODULE_ARG "wlan " []).2).2 =
        [] ++ es ∧
      ∀ e ∈ es, e.isProbe = true ∧ e.isInsertion = false :=
  insmod_already_loaded envLoaded WIFI_DRIVER_MODULE_PATH WIFI_DRIVER_MODULE_ARG "wlan " []
    (by decide) (by decide)

/-- C7: when `is_softap_enabled` reports `DISABLE`, `wifi_qsap_stop_softap` returns
`eSUCCESS` and all it has done is the one status read: no entry into
`wifi_qsap_stop_bss`, no configuration read, no socket, no ioctl, no sleep. -/
theorem stop_softap_when_disabled (c : Header) (env : Env) (t : Trace)
    (hD : c.DISABLE = 0)
    (h : (is_softap_enabled c env (t ++ [.enter "wifi_qsap_stop_softap"])).1 = c.DISABLE) :
    ∃ ret value, wifi_qsap_stop_softap c env t =
      (c.eSUCCESS,
        t ++ [.enter "wifi_qsap_stop_softap", .property_get "init.svc.hostapd" ret value]) := by
  refine ⟨(env.property_get (external (t ++ [.enter "wifi_qsap_stop_softap"]))
      "init.svc.hostapd").1,
    (env.property_get (external (t ++ [.enter "wifi_qsap_stop_softap"]))
      "init.svc.hostapd").2, ?_⟩
  simp only [wifi_qsap_stop_softap, h, hD, ne_eq, not_true_eq_false, if_false,
    is_softap_enabled_trace, List.append_assoc, List.singleton_append]

/-- C7 at `envIdle`, where nothing has triggered the service. -/
theorem stop_softap_when_disabled_witness :
    ∃ ret value, wifi_qsap_stop_softap sampleHeader envIdle [] =
      (sampleHeader.eSUCCESS,
        [] ++ [.enter "wifi_qsap_stop_softap", .property_get "init.svc.hostapd" ret value]) :=
  stop_softap_when_disabled sampleHeader envIdle [] rfl rfl

/-- C8: when the configuration never yields an interface name, `wifi_qsap_stop_bss`
returns `eERR_STOP_BSS` right after the configuration read (no socket, no
ioctl); and `wifi_qsap_stop_softap`, called while the AP is enabled, returns
`eERR_STOP_SAP` right after that failed `wifi_qsap_stop_bss` (no sleep). -/
theorem stop_bss_without_interface (c : Header) (env : Env) (t : Trace)
    (hcfg : ∀ u, env.qsap_get_config_value u c.CONFIG_FILE "interface" = none)
    (hne : c.eERR_STOP_BSS ≠ c.eSUCCESS)
    (hup : (is_softap_enabled c env (t ++ [.enter "wifi_qsap_stop_softap"])).1 ≠ 0) :
    wifi_qsap_stop_bss c env t =
      (c.eERR_STOP_BSS,
        t ++ [.enter "wifi_qsap_stop_bss",
          .qsap_get_config_value c.CONFIG_FILE "interface" none]) ∧
    ∃ ret value, wifi_qsap_stop_softap c env t =
      (c.eERR_STOP_SAP,
        t ++ [.enter "wifi_qsap_stop_softap", .property_get "init.svc.hostapd" ret value,
          .enter "wifi_qsap_stop_bss",
          .qsap_get_config_value c.CONFIG_FILE "interface" none]) := by
  have hbss : ∀ u, wifi_qsap_stop_bss c env u =
      (c.eERR_STOP_BSS,
        u ++ [.enter "wifi_qsap_stop_bss",
          .qsap_get_config_value c.CONFIG_FILE "interface" none]) := by
    intro u
    simp only [wifi_qsap_stop_bss, hcfg, List.append_assoc, List.singleton_append]
  refine ⟨hbss t,
    (env.property_get (external (t ++ [.enter "wifi_qsap_stop_softap"]))
      "init.svc.hostapd").1,
    (env.property_get (external (t ++ [.enter "wifi_qsap_stop_softap"]))
      "init.svc.hostapd").2, ?_⟩
  simp only [wifi_qsap_stop_softap, if_pos hup, hbss, if_pos (Ne.symm hne),
    is_softap_enabled_trace, List.append_assoc, List.singleton_append, List.cons_append,
    List.nil_append]

/-- C8 at `envNoInterface`, where the service is running. -/
theorem stop_bss_without_interface_witness :
    wifi_qsap_stop_bss sampleHeader envNoInterface [] =
      (sampleHeader.eERR_STOP_BSS,
        [] ++ [.enter "wifi_qsap_stop_bss",
          .qsap_get_config_value sampleHeader.CONFIG_FILE "interface" none]) ∧
    ∃ ret value, wifi_qsap_stop_softap sampleHeader envNoInterface [] =
      (sampleHeader.eERR_STOP_SAP,
        [] ++ [.enter "wifi_qsap_stop_softap", .property_get "init.svc.hostapd" ret value,
          .enter "wifi_qsap_stop_bss",
          .qsap_get_config_value sampleHeader.CONFIG_FILE "interface" none]) :=
  stop_bss_without_interface sampleHeader envNoInterface [] (fun _ => rfl) (by decide)
    (by decide)

/-! ### Result codes -/

theorem append_of_eq {t x ps : Trace} (h : x = t ++ ps) (ys : Trace) :
    x ++ ys = t ++ (ps ++ ys) := by
  rw [h, List.append_assoc]

theorem insmod_result (env : Env) (filename args tag : String) (t : Trace) :
    ∃ es, (insmod env filename args tag t).2 = t ++ es ∧
      ((insmod env filename args tag t).1 = 0 ∨
       ((insmod env filename args tag t).1 = -1 ∧ .load_file filename false ∈ es) ∨
       ((insmod env filename args tag t).1 ≠ 0 ∧
         ∃ image size, .init_module image size args (insmod env filename args tag t).1 ∈ es)) := by
  obtain ⟨ps, hps, -⟩ := check_driver_loaded_emits (P := fun _ => True) (fun _ _ => trivial)
    env tag t
  unfold insmod
  simp only []
  split_ifs with hprobe
  · exact ⟨ps, hps, Or.inl rfl⟩
  · split
    · exact ⟨_, append_of_eq hps _, Or.inr (Or.inl ⟨rfl, by simp⟩)⟩
    · rename_i image himage
      by_cases hret : env.init_module
          (external ((check_driver_loaded env tag t).2 ++ [.load_file filename true]))
          image image.length args = 0
      · exact ⟨_, append_of_eq (append_of_eq hps _) _, Or.inl hret⟩
      · exact ⟨_, append_of_eq (append_of_eq hps _) _,
          Or.inr (Or.inr ⟨hret, image, image.length, by simp⟩)⟩

/-- The result of `wifi_qsap_load_driver` is 0, or -1 after an image that could not
be read, or the non-zero result of one of its `init_module` calls. -/
theorem wifi_qsap_load_driver_result (env : Env) (t : Trace) :
    ∃ es, (wifi_qsap_load_driver env t).2 = t ++ es ∧
      ((wifi_qsap_load_driver env t).1 = 0 ∨
       ((wifi_qsap_load_driver env t).1 = -1 ∧ ∃ path, .load_file path false ∈ es) ∨
       ((wifi_qsap_load_driver env t).1 ≠ 0 ∧
         ∃ image size args,
           .init_module image size args (wifi_qsap_load_driver env t).1 ∈ es)) := by
  have hT : ∀ e : Event, e.isEnter = false → (fun _ : Event => True) e := fun _ _ => trivial
  have hS : ∀ e : Event, e.isSystem = true → (fun _ : Event => True) e := fun _ _ => trivial
  obtain ⟨as, has, -⟩ := (((Emits.refl (fun _ => True) t).snoc
    (e := .enter "wifi_qsap_load_driver") trivial).snoc
    (e := .enter "wifi_qsap_unload_wifi_sta_driver") trivial).trans
    ((wifi_qsap_unload_wifi_sta_driver_emits hT env _).trans (run_system_emits hS env
      SDIO_POLLING_ON _))
  obtain ⟨es1, hes1, hr1⟩ := insmod_result env WIFI_SDIO_IF_DRIVER_MODULE_PATH
    WIFI_SDIO_IF_DRIVER_MODULE_ARG (WIFI_SDIO_IF_DRIVER_MODULE_NAME ++ " ")
    (run_system env SDIO_POLLING_ON
      (wifi_qsap_unload_wifi_sta_driver env (t ++ [.enter "wifi_qsap_load_driver"])).2).2
  obtain ⟨es2, hes2, hr2⟩ := insmod_result env WIFI_DRIVER_MODULE_PATH
    WIFI_DRIVER_MODULE_ARG (WIFI_DRIVER_MODULE_NAME ++ " ")
    ((insmod env WIFI_SDIO_IF_DRIVER_MODULE_PATH WIFI_SDIO_IF_DRIVER_MODULE_ARG
      (WIFI_SDIO_IF_DRIVER_MODULE_NAME ++ " ")
      (run_system env SDIO_POLLING_ON
        (wifi_qsap_unload_wifi_sta_driver env
          (t ++ [.enter "wifi_qsap_load_driver"])).2).2).2 ++ [.sched_yield])
  have h1t := hes1.trans (append_of_eq has es1)
  have h2t := hes2.trans (append_of_eq (append_of_eq h1t [.sched_yield]) es2)
  unfold wifi_qsap_load_driver
  simp only []
  split_ifs with h1 h2
  · refine ⟨_, append_of_eq h1t _, ?_⟩
    rcases hr1 with h | ⟨h, hm⟩ | ⟨h, image, size, hm⟩
    · exact absurd h h1
    · exact Or.inr (Or.inl ⟨h, WIFI_SDIO_IF_DRIVER_MODULE_PATH, by simp [hm]⟩)
    · exact Or.inr (Or.inr ⟨h, image, size, WIFI_SDIO_IF_DRIVER_MODULE_ARG, by simp [hm]⟩)
  · refine ⟨_, append_of_eq h2t _, ?_⟩
    rcases hr2 with h | ⟨h, hm⟩ | ⟨h, image, size, hm⟩
    · exact absurd h h2
    · exact Or.inr (Or.inl ⟨h, WIFI_DRIVER_MODULE_PATH, by simp [hm]⟩)
    · exact Or.inr (Or.inr ⟨h, image, size, WIFI_DRIVER_MODULE_ARG, by simp [hm]⟩)
  · exact ⟨_, append_of_eq (append_of_eq h2t _) _, Or.inl (not_not.1 h2)⟩

theorem wifi_qsap_stop_softap_result (c : Header) (env : Env) (t : Trace) :
    (wifi_qsap_stop_softap c env t).1 = c.eSUCCESS ∨
    (wifi_qsap_stop_softap c env t).1 = c.eERR_STOP_SAP := by
  unfold wifi_qsap_stop_softap
  simp only []
  split_ifs
  · exact Or.inr rfl
  · exact Or.inl rfl
  · exact Or.inl rfl

theorem wifi_qsap_reload_softap_result (c : Header) (env : Env) (t : Trace) :
    (wifi_qsap_reload_softap c env t).1 = c.eSUCCESS ∨
    (wifi_qsap_reload_softap c env t).1 = c.eERR_RELOAD_SAP := by
  unfold wifi_qsap_reload_softap
  simp only []
  split_ifs
  · exact Or.inr rfl
  · exact Or.inr rfl
  · exact Or.inr rfl
  · exact Or.inr rfl
  · exact Or.inl rfl

theorem commit_result (c : Header) (env : Env) (t : Trace) :
    (commit c env t).1 = c.eSUCCESS ∨ (commit c env t).1 = c.eERR_START_SAP ∨
    (commit c env t).1 = c.eERR_COMMIT := by
  unfold commit
  simp only []
  split_ifs
  · exact Or.inr (Or.inr rfl)
  · rcases wifi_qsap_start_softap_result c env (commit_stop c env t).2 with h | h
    · exact Or.inl h
    · exact Or.inr (Or.inl h)
  · rcases wifi_qsap_start_softap_result c env (commit_stop c env t).2 with h | h
    · exact Or.inl h
    · exact Or.inr (Or.inl h)

/-- When the kernel rejects the insertion with a non-zero `ret`, that `ret` is what
`wifi_qsap_load_driver` returns. -/
theorem wifi_qsap_load_driver_rejected (ret : Int) (h : ret ≠ 0) :
    (wifi_qsap_load_driver (envRejected ret) []).1 = ret := by
  simp [wifi_qsap_load_driver, insmod, check_driver_loaded, check_driver_loaded_loop, fgets,
    envRejected, envIdle, h]

/-- Whatever values the header gives the result codes, some rejection makes
`wifi_qsap_load_driver` return a value that is none of them. -/
theorem wifi_qsap_load_driver_outside_codes (c : Header) :
    ∃ ret, (wifi_qsap_load_driver (envRejected ret) []).1 ∉ resultCodes c := by
  refine ⟨1 + |c.eSUCCESS| + |c.eERR_STOP_BSS| + |c.eERR_START_SAP| + |c.eERR_STOP_SAP| +
    |c.eERR_RELOAD_SAP| + |c.eERR_COMMIT|, ?_⟩
  have a1 := le_abs_self c.eSUCCESS
  have a2 := le_abs_self c.eERR_STOP_BSS
  have a3 := le_abs_self c.eERR_START_SAP
  have a4 := le_abs_self c.eERR_STOP_SAP
  have a5 := le_abs_self c.eERR_RELOAD_SAP
  have a6 := le_abs_self c.eERR_COMMIT
  have b1 := abs_nonneg c.eSUCCESS
  have b2 := abs_nonneg c.eERR_STOP_BSS
  have b3 := abs_nonneg c.eERR_START_SAP
  have b4 := abs_nonneg c.eERR_STOP_SAP
  have b5 := abs_nonneg c.eERR_RELOAD_SAP
  have b6 := abs_nonneg c.eERR_COMMIT
  rw [wifi_qsap_load_driver_rejected _ (by linarith)]
  simp only [resultCodes, List.mem_cons, List.mem_singleton, List.not_mem_nil, or_false, not_or]
  refine ⟨?_, ?_, ?_, ?_, ?_, ?_⟩ <;> intro h <;> linarith

/-- C9 (amended): when `eSUCCESS` is 0, `wifi_qsap_unload_driver`,
`wifi_qsap_start_softap`, `wifi_qsap_stop_softap`, `wifi_qsap_reload_softap`
and `commit` each return one of the result codes; `wifi_qsap_load_driver`
returns `eSUCCESS`, or -1 after a module image that could not be read, or the
non-zero result of one of its `init_module` calls. -/
theorem entry_points_results (c : Header) (env : Env) (t : Trace) (h0 : c.eSUCCESS = 0) :
    (wifi_qsap_unload_driver env t).1 ∈ resultCodes c ∧
    (wifi_qsap_start_softap c env t).1 ∈ resultCodes c ∧
    (wifi_qsap_stop_softap c env t).1 ∈ resultCodes c ∧
    (wifi_qsap_reload_softap c env t).1 ∈ resultCodes c ∧
    (commit c env t).1 ∈ resultCodes c ∧
    ∃ es, (wifi_qsap_load_driver env t).2 = t ++ es ∧
      ((wifi_qsap_load_driver env t).1 = c.eSUCCESS ∨
       ((wifi_qsap_load_driver env t).1 = -1 ∧ ∃ path, .load_file path false ∈ es) ∨
       ((wifi_qsap_load_driver env t).1 ≠ 0 ∧
         ∃ image size args,
           .init_module image size args (wifi_qsap_load_driver env t).1 ∈ es)) := by
  refine ⟨?_, ?_, ?_, ?_, ?_, ?_⟩
  · show (0 : Int) ∈ resultCodes c
    simp [resultCodes, h0]
  · rcases wifi_qsap_start_softap_result c env t with h | h <;> simp [resultCodes, h]
  · rcases wifi_qsap_stop_softap_result c env t with h | h <;> simp [resultCodes, h]
  · rcases wifi_qsap_reload_softap_result c env t with h | h <;> simp [resultCodes, h]
  · rcases commit_result c env t with h | h | h <;> simp [resultCodes, h]
  · rw [h0]
    exact wifi_qsap_load_driver_result env t

/-- C9 (amended) at `envIdle`. -/
theorem entry_points_results_witness :
    (wifi_qsap_unload_driver envIdle []).1 ∈ resultCodes sampleHeader ∧
    (wifi_qsap_start_softap sampleHeader envIdle []).1 ∈ resultCodes sampleHeader ∧
    (wifi_qsap_stop_softap sampleHeader envIdle []).1 ∈ resultCodes sampleHeader ∧
    (wifi_qsap_reload_softap sampleHeader envIdle []).1 ∈ resultCodes sampleHeader ∧
    (commit sampleHeader envIdle []).1 ∈ resultCodes sampleHeader ∧
    ∃ es, (wifi_qsap_load_driver envIdle []).2 = [] ++ es ∧
      ((wifi_qsap_load_driver envIdle []).1 = sampleHeader.eSUCCESS ∨
       ((wifi_qsap_load_driver envIdle []).1 = -1 ∧ ∃ path, .load_file path false ∈ es) ∨
       ((wifi_qsap_load_driver envIdle []).1 ≠ 0 ∧
         ∃ image size args,
           .init_module image size args (wifi_qsap_load_driver envIdle []).1 ∈ es)) :=
  entry_points_results sampleHeader envIdle [] rfl

/-- C9 (as stated, fails): `wifi_qsap_load_driver` returns -1 when the module image
cannot be read (`envNoImage`) and when `init_module` is rejected with -1
(`envRejected (-1)`), and -1 is none of the result codes of `sampleHeader`; and
for every assignment of the result codes there is a rejection whose result
`wifi_qsap_load_driver` returns although it is none of them. -/
theorem load_driver_result_is_no_code :
    (wifi_qsap_load_driver envNoImage []).1 = -1 ∧
    (wifi_qsap_load_driver (envRejected (-1)) []).1 = -1 ∧
    (-1 : Int) ∉ resultCodes sampleHeader ∧
    ∀ c : Header, ∃ ret, (wifi_qsap_load_driver (envRejected ret) []).1 ∉ resultCodes c :=
  ⟨by decide, by decide, by decide, wifi_qsap_load_driver_outside_codes⟩

/-! ### The polling guard -/

theorem guard_run_append (a : Bool) (es fs : Trace) :
    guard_run a (es ++ fs) = (guard_run a es).bind (fun b => guard_run b fs) := by
  induction es generalizing a with
  | nil => rfl
  | cons e es ih =>
    simp only [List.cons_append, guard_run]
    cases guard_step a e with
    | none => rfl
    | some b => exact ih b

theorem Guarded.stay (a : Bool) (t : Trace) : Guarded a a t t :=
  ⟨[], by simp, rfl⟩

theorem Guarded.andThen {a b c : Bool} {t u v : Trace} (h1 : Guarded a b t u)
    (h2 : Guarded b c u v) : Guarded a c t v := by
  obtain ⟨es, rfl, hes⟩ := h1
  obtain ⟨fs, rfl, hfs⟩ := h2
  exact ⟨es ++ fs, by simp, by rw [guard_run_append, hes]; exact hfs⟩

theorem Guarded.step {a b c : Bool} {t u : Trace} (h : Guarded a b t u) {e : Event}
    (he : guard_step b e = some c) : Guarded a c t (u ++ [e]) :=
  h.andThen ⟨[e], rfl, by simp [guard_run, he]⟩

/-- While polling is on, anything but a `system` call leaves it on. -/
theorem Guarded.of_emits {t u : Trace} (h : Emits (fun e => e.isSystem = false) t u) :
    Guarded true true t u := by
  obtain ⟨es, rfl, hes⟩ := h
  refine ⟨es, rfl, ?_⟩
  induction es with
  | nil => rfl
  | cons e es ih =>
    have he : guard_step true e = some true := by
      have := hes e (by simp)
      cases e <;> simp_all [guard_step, Event.isSystem]
    simp only [guard_run, he]
    exact ih (fun e' h' => hes e' (List.mem_cons_of_mem _ h'))

theorem unload_modules_guarded (env : Env) (t : Trace) :
    Guarded true true t (unload_modules env t).2 :=
  Guarded.of_emits (unload_modules_emits (P := fun e => e.isSystem = false)
    (fun e h => by cases e <;> simp_all [Event.isProbe, Event.isSystem])
    (fun e h => by cases e <;> simp_all [Event.isRemoval, Event.isSystem])
    rfl env t)

theorem insmod_guarded (env : Env) (filename args tag : String) (t : Trace) :
    Guarded true true t (insmod env filename args tag t).2 :=
  Guarded.of_emits (insmod_emits (P := fun e => e.isSystem = false)
    (fun e h => by cases e <;> simp_all [Event.isProbe, Event.isSystem])
    (fun e h => by cases e <;> simp_all [Event.isInsertion, Event.isSystem])
    env filename args tag t)

theorem polling_on_guarded (a : Bool) (env : Env) (t : Trace) :
    Guarded a true t (run_system env SDIO_POLLING_ON t).2 :=
  (Guarded.stay a t).step (by simp [guard_step])

/-- Turning polling off at the end of a guarded stretch closes the bracket. -/
theorem Bracketed.close {t u : Trace} (h : Guarded false true t u) (env : Env) :
    Bracketed t (run_system env SDIO_POLLING_OFF u).2 := by
  obtain ⟨es, rfl, hes⟩ := h
  refine ⟨es ++ [.system SDIO_POLLING_OFF
    (env.system (external (t ++ es)) SDIO_POLLING_OFF)], ?_, ?_, ?_⟩
  · simp [run_system]
  · rw [guard_run_append, hes]
    simp [guard_run, guard_step, SDIO_POLLING_ON, SDIO_POLLING_OFF]
  · simp [systemCommands]

theorem Bracketed.yield {t u : Trace} (h : Bracketed t u) :
    Bracketed t (u ++ [.sched_yield]) := by
  obtain ⟨es, rfl, hes, hlast⟩ := h
  refine ⟨es ++ [.sched_yield], by simp, ?_, ?_⟩
  · rw [guard_run_append, hes]
    rfl
  · simpa [systemCommands] using hlast

theorem Bracketed.enter {t u : Trace} {fn : String} (h : Bracketed (t ++ [.enter fn]) u) :
    Bracketed t u := by
  obtain ⟨es, rfl, hes, hlast⟩ := h
  refine ⟨.enter fn :: es, by simp, ?_, ?_⟩
  · simpa [guard_run, guard_step] using hes
  · simpa [systemCommands] using hlast

theorem Bracketed.guarded {t u : Trace} (h : Bracketed t u) : Guarded false false t u := by
  obtain ⟨es, rfl, hes, -⟩ := h
  exact ⟨es, rfl, hes⟩

theorem wifi_qsap_unload_driver_bracketed (env : Env) (t : Trace) :
    Bracketed t (wifi_qsap_unload_driver env t).2 :=
  Bracketed.enter (Bracketed.close
    ((polling_on_guarded false env _).andThen (unload_modules_guarded env _)) env)

theorem wifi_qsap_unload_wifi_sta_driver_bracketed (env : Env) (t : Trace) :
    Bracketed t (wifi_qsap_unload_wifi_sta_driver env t).2 :=
  Bracketed.enter (Bracketed.yield (Bracketed.close
    ((polling_on_guarded false env _).andThen (unload_modules_guarded env _)) env))

theorem wifi_qsap_load_driver_bracketed (env : Env) (t : Trace) :
    Bracketed t (wifi_qsap_load_driver env t).2 := by
  have h1 := (((wifi_qsap_unload_wifi_sta_driver_bracketed env
    (t ++ [.enter "wifi_qsap_load_driver"])).guarded.andThen
    (polling_on_guarded false env _)).andThen
    (insmod_guarded env WIFI_SDIO_IF_DRIVER_MODULE_PATH WIFI_SDIO_IF_DRIVER_MODULE_ARG
      (WIFI_SDIO_IF_DRIVER_MODULE_NAME ++ " ") _))
  have h2 := (h1.step (e := .sched_yield) (c := true) rfl).andThen
    (insmod_guarded env WIFI_DRIVER_MODULE_PATH WIFI_DRIVER_MODULE_ARG
      (WIFI_DRIVER_MODULE_NAME ++ " ") _)
  have h3 := h2.step (e := .sched_yield) (c := true) rfl
  refine @Bracketed.enter t _ "wifi_qsap_load_driver" ?_
  unfold wifi_qsap_load_driver
  simp only []
  split_ifs
  · exact Bracketed.close h1 env
  · exact Bracketed.close h2 env
  · exact Bracketed.close h3 env

/-- C10: in every run of `wifi_qsap_load_driver`, `wifi_qsap_unload_driver` and
`wifi_qsap_unload_wifi_sta_driver`, each `init_module` and `delete_module`
call comes after a "polling on" command with no "polling off" in between, the
run ends with polling off, and the last command issued is "polling off";
whatever the insertions, the removals and the commands themselves return. -/
theorem polling_guard (env : Env) (t : Trace) :
    (∃ es, (wifi_qsap_load_driver env t).2 = t ++ es ∧ guard_run false es = some false ∧
      (systemCommands es).getLast? = some SDIO_POLLING_OFF) ∧
    (∃ es, (wifi_qsap_unload_driver env t).2 = t ++ es ∧ guard_run false es = some false ∧
      (systemCommands es).getLast? = some SDIO_POLLING_OFF) ∧
    (∃ es, (wifi_qsap_unload_wifi_sta_driver env t).2 = t ++ es ∧
      guard_run false es = some false ∧
      (systemCommands es).getLast? = some SDIO_POLLING_OFF) :=
  ⟨wifi_qsap_load_driver_bracketed env t, wifi_qsap_unload_driver_bracketed env t,
    wifi_qsap_unload_wifi_sta_driver_bracketed env t⟩

/-! ### Return values that do not follow the outcome -/

/-- C11: `wifi_qsap_unload_driver` and `wifi_qsap_unload_wifi_sta_driver` return 0 in
every environment, whatever the value of their failure flag `ret` on arrival at
the label `end`; in `envHeld`, where the removal of `wlan` is rejected, that
flag is 1 in both and both return 0. -/
theorem unload_returns_zero (env : Env) (t : Trace) :
    (wifi_qsap_unload_driver env t).1 = 0 ∧
    (wifi_qsap_unload_wifi_sta_driver env t).1 = 0 ∧
    (unload_modules envHeld
      (run_system envHeld SDIO_POLLING_ON [.enter "wifi_qsap_unload_driver"]).2).1 = 1 ∧
    (wifi_qsap_unload_driver envHeld []).1 = 0 ∧
    (unload_modules envHeld
      (run_system envHeld SDIO_POLLING_ON [.enter "wifi_qsap_unload_wifi_sta_driver"]).2).1 = 1 ∧
    (wifi_qsap_unload_wifi_sta_driver envHeld []).1 = 0 :=
  ⟨rfl, rfl, by decide, rfl, by decide, rfl⟩

/-- C12: when the configuration yields an interface name and the socket opens,
`wifi_qsap_stop_bss` returns `eSUCCESS` whatever the ioctl answers; after the
ioctl it closes the socket, once, and yields. -/
theorem stop_bss_ignores_ioctl (c : Header) (env : Env) (t : Trace) (name : String)
    (hcfg : ∀ u, env.qsap_get_config_value u c.CONFIG_FILE "interface" = some name)
    (hsock : ∀ u, 0 ≤ env.socket u AF_INET SOCK_DGRAM 0) :
    ∃ sock answer, wifi_qsap_stop_bss c env t =
      (c.eSUCCESS,
        t ++ [.enter "wifi_qsap_stop_bss",
          .qsap_get_config_value c.CONFIG_FILE "interface" (some name),
          .socket AF_INET SOCK_DGRAM 0 sock,
          .ioctl sock QCIEEE80211_IOCTL_STOPBSS (String.mk (name.toList.take IFNAMSIZ))
            "stopbss" answer,
          .close sock,
          .sched_yield]) := by
  refine ⟨?_, ?_, ?_⟩
  case refine_3 =>
    simp only [wifi_qsap_stop_bss, hcfg, not_lt.2 (hsock _), if_false, ne_eq,
      not_true_eq_false, List.append_assoc, List.singleton_append, List.cons_append,
      List.nil_append]
    exact rfl

/-- C12 at `envIdle`, and with an ioctl that answers -1. -/
theorem stop_bss_ignores_ioctl_witness :
    (∃ sock answer, wifi_qsap_stop_bss sampleHeader envIdle [] =
      (sampleHeader.eSUCCESS,
        [] ++ [.enter "wifi_qsap_stop_bss",
          .qsap_get_config_value sampleHeader.CONFIG_FILE "interface" (some "wlan0"),
          .socket AF_INET SOCK_DGRAM 0 sock,
          .ioctl sock QCIEEE80211_IOCTL_STOPBSS (String.mk ("wlan0".toList.take IFNAMSIZ))
            "stopbss" answer,
          .close sock,
          .sched_yield])) ∧
    (wifi_qsap_stop_bss sampleHeader { envIdle with ioctl := fun _ _ _ _ _ => -1 } []).1 =
      sampleHeader.eSUCCESS :=
  ⟨stop_bss_ignores_ioctl sampleHeader envIdle [] "wlan0" (fun _ => rfl)
      (fun _ => show (0 : Int) ≤ 3 by decide),
    rfl⟩

/-- C13: `is_softap_enabled` returns `ENABLE` exactly when `property_get` of
`init.svc.hostapd` returns non-zero and leaves the string `running` in the
buffer, and `DISABLE` in every other case. -/
theorem is_softap_enabled_iff_running (c : Header) (env : Env) (t : Trace)
    (hne : c.ENABLE ≠ c.DISABLE) :
    ((is_softap_enabled c env t).1 = c.ENABLE ↔
      (env.property_get (external t) "init.svc.hostapd").1 ≠ 0 ∧
      (env.property_get (external t) "init.svc.hostapd").2 = "running") ∧
    ((is_softap_enabled c env t).1 = c.DISABLE ↔
      ¬ ((env.property_get (external t) "init.svc.hostapd").1 ≠ 0 ∧
        (env.property_get (external t) "init.svc.hostapd").2 = "running")) := by
  unfold is_softap_enabled
  simp only []
  split_ifs with h
  · exact ⟨⟨fun _ => h, fun _ => rfl⟩, ⟨fun h' => absurd h' hne, fun h' => absurd h h'⟩⟩
  · exact ⟨⟨fun h' => absurd h'.symm hne, fun h' => absurd h' h⟩, ⟨fun _ => h, fun _ => rfl⟩⟩

/-- C13 at `envCapital` (the value `Running`), `envRunning` (`running`) and
`envDown` (a failed read). -/
theorem is_softap_enabled_iff_running_witness :
    (is_softap_enabled sampleHeader envCapital []).1 = sampleHeader.DISABLE ∧
    (is_softap_enabled sampleHeader envRunning []).1 = sampleHeader.ENABLE ∧
    (is_softap_enabled sampleHeader envDown []).1 = sampleHeader.DISABLE :=
  ⟨(is_softap_enabled_iff_running sampleHeader envCapital [] (by decide)).2.2 (by decide),
    (is_softap_enabled_iff_running sampleHeader envRunning [] (by decide)).1.2 (by decide),
    (is_softap_enabled_iff_running sampleHeader envDown [] (by decide)).2.2 (by decide)⟩

/-! ### The load pipeline -/

theorem wifi_qsap_load_driver_eq (env : Env) (t : Trace) :
    wifi_qsap_load_driver env t =
      if (load_sdioif env t).1 ≠ 0 then
        ((load_sdioif env t).1, (run_system env SDIO_POLLING_OFF (load_sdioif env t).2).2)
      else if (load_wlan env t).1 ≠ 0 then
        ((load_wlan env t).1, (run_system env SDIO_POLLING_OFF (load_wlan env t).2).2)
      else
        ((load_wlan env t).1,
          (run_system env SDIO_POLLING_OFF ((load_wlan env t).2 ++ [.sched_yield])).2) :=
  rfl

/-! ### The reload pipeline -/

theorem wifi_qsap_stop_softap_emits {P : Event → Prop}
    (hext : ∀ e, e.isEnter = false → P e) (hbss : P (.enter "wifi_qsap_stop_bss"))
    (c : Header) (env : Env) (t : Trace) :
    Emits P (t ++ [.enter "wifi_qsap_stop_softap"]) (wifi_qsap_stop_softap c env t).2 := by
  have h1 := is_softap_enabled_emits hext c env (t ++ [.enter "wifi_qsap_stop_softap"])
  have h2 := (h1.snoc hbss).trans (wifi_qsap_stop_bss_emits hext c env _)
  unfold wifi_qsap_stop_softap
  simp only []
  split_ifs
  · exact h2
  · exact h2.snoc (hext _ rfl)
  · exact h1

theorem wifi_qsap_load_driver_emits {P : Event → Prop}
    (hext : ∀ e, e.isEnter = false → P e)
    (hsta : P (.enter "wifi_qsap_unload_wifi_sta_driver")) (env : Env) (t : Trace) :
    Emits P (t ++ [.enter "wifi_qsap_load_driver"]) (wifi_qsap_load_driver env t).2 := by
  have hsys : ∀ e : Event, e.isSystem = true → P e := fun e h =>
    hext e (by cases e <;> simp_all [Event.isSystem, Event.isEnter])
  have hprobe : ∀ e : Event, e.isProbe = true → P e := fun e h =>
    hext e (by cases e <;> simp_all [Event.isProbe, Event.isEnter])
  have hins : ∀ e : Event, e.isInsertion = true → P e := fun e h =>
    hext e (by cases e <;> simp_all [Event.isInsertion, Event.isEnter])
  have h0 : Emits P (t ++ [.enter "wifi_qsap_load_driver"]) (load_driver_start env t) :=
    (((Emits.refl P _).snoc hsta).trans
      (wifi_qsap_unload_wifi_sta_driver_emits hext env _)).trans (run_system_emits hsys env _ _)
  have h1 : Emits P (t ++ [.enter "wifi_qsap_load_driver"]) (load_sdioif env t).2 :=
    h0.trans (insmod_emits hprobe hins env _ _ _ _)
  have h2 : Emits P (t ++ [.enter "wifi_qsap_load_driver"]) (load_wlan env t).2 :=
    (h1.snoc (e := .sched_yield) (hext _ rfl)).trans (insmod_emits hprobe hins env _ _ _ _)
  rw [wifi_qsap_load_driver_eq]
  split_ifs
  · exact h1.trans (run_system_emits hsys env _ _)
  · exact h2.trans (run_system_emits hsys env _ _)
  · exact (h2.snoc (e := .sched_yield) (hext _ rfl)).trans (run_system_emits hsys env _ _)

theorem pipelineSteps_append (es fs : Trace) :
    pipelineSteps (es ++ fs) = pipelineSteps es ++ pipelineSteps fs := by
  simp [pipelineSteps]

theorem Steps.none {fns : List String} {t u : Trace} (h : Emits (OnlyEnters fns) t u)
    (hfns : ∀ fn ∈ fns, fn ∉ pipeline) : Steps [] t u := by
  obtain ⟨es, rfl, hes⟩ := h
  refine ⟨es, rfl, ?_⟩
  induction es with
  | nil => rfl
  | cons e es ih =>
    have htail := ih (fun e' h' => hes e' (List.mem_cons_of_mem _ h'))
    have he := hes e (by simp)
    cases e with
    | enter fn =>
      have hfn : fn ∉ pipeline := hfns fn (he fn rfl)
      simpa [pipelineSteps, hfn] using htail
    | _ => simpa [pipelineSteps] using htail

theorem Steps.join {l m : List String} {t u v : Trace} (h1 : Steps l t u) (h2 : Steps m u v) :
    Steps (l ++ m) t v := by
  obtain ⟨es, rfl, hes⟩ := h1
  obtain ⟨fs, rfl, hfs⟩ := h2
  exact ⟨es ++ fs, by simp, by rw [pipelineSteps_append, hes, hfs]⟩

theorem Steps.call (t : Trace) (fn : String) (hfn : fn ∈ pipeline) :
    Steps [fn] t (t ++ [.enter fn]) :=
  ⟨[.enter fn], rfl, by simp [pipelineSteps, hfn]⟩

theorem Steps.pause {l : List String} {t u : Trace} (h : Steps l t u) {e : Event}
    (he : e.isEnter = false) : Steps l t (u ++ [e]) := by
  have : Steps [] u (u ++ [e]) :=
    ⟨[e], rfl, by cases e <;> simp_all [pipelineSteps, Event.isEnter]⟩
  simpa using h.join this

theorem onlyEnters_ext (fns : List String) : ∀ e : Event, e.isEnter = false → OnlyEnters fns e :=
  fun _ h => onlyEnters_of_external h fns

theorem onlyEnters_mem {fns : List String} {fn : String} (h : fn ∈ fns) :
    OnlyEnters fns (.enter fn) := by
  intro fn' h'
  cases h'
  exact h

theorem stop_softap_steps (c : Header) (env : Env) (t : Trace) :
    Steps ["wifi_qsap_stop_softap"] t (wifi_qsap_stop_softap c env t).2 := by
  have := (Steps.call t "wifi_qsap_stop_softap" (by decide)).join
    (Steps.none (wifi_qsap_stop_softap_emits (onlyEnters_ext ["wifi_qsap_stop_bss"])
      (onlyEnters_mem (by decide)) c env t) (by decide))
  simpa using this

theorem unload_driver_steps (env : Env) (t : Trace) :
    Steps ["wifi_qsap_unload_driver"] t (wifi_qsap_unload_driver env t).2 := by
  have := (Steps.call t "wifi_qsap_unload_driver" (by decide)).join
    (Steps.none (wifi_qsap_unload_driver_emits (onlyEnters_ext []) env t) (by decide))
  simpa using this

theorem load_driver_steps (env : Env) (t : Trace) :
    Steps ["wifi_qsap_load_driver"] t (wifi_qsap_load_driver env t).2 := by
  have := (Steps.call t "wifi_qsap_load_driver" (by decide)).join
    (Steps.none (wifi_qsap_load_driver_emits
      (onlyEnters_ext ["wifi_qsap_unload_wifi_sta_driver"])
      (onlyEnters_mem (by decide)) env t) (by decide))
  simpa using this

theorem start_softap_steps (c : Header) (env : Env) (t : Trace) :
    Steps ["wifi_qsap_start_softap"] t (wifi_qsap_start_softap c env t).2 := by
  have := (Steps.call t "wifi_qsap_start_softap" (by decide)).join
    (Steps.none (wifi_qsap_start_softap_emits (onlyEnters_ext []) c env t) (by decide))
  simpa using this

theorem wifi_qsap_reload_softap_eq (c : Header) (env : Env) (t : Trace) :
    wifi_qsap_reload_softap c env t =
      if c.eSUCCESS ≠ (wifi_qsap_stop_softap c env t).1 then
        (c.eERR_RELOAD_SAP, (wifi_qsap_stop_softap c env t).2)
      else if c.eSUCCESS ≠ (reload_unload c env t).1 then
        (c.eERR_RELOAD_SAP, (reload_unload c env t).2)
      else if c.eSUCCESS ≠ (reload_load c env t).1 then
        (c.eERR_RELOAD_SAP, (reload_load c env t).2)
      else if c.eSUCCESS ≠ (reload_start c env t).1 then
        (c.eERR_RELOAD_SAP, (wifi_qsap_unload_driver env (reload_start c env t).2).2)
      else (c.eSUCCESS, (reload_start c env t).2) :=
  rfl

/-- C15: the pipeline steps that `wifi_qsap_reload_softap` enters are a beginning of
stop, unload, load, start, in this order, or all four followed by the cleanup
unload.  A failed stop ends the reload with `eERR_RELOAD_SAP` at the end of the
stop, the only step entered; a failed load ends it with `eERR_RELOAD_SAP` at the
end of the load, the third and last step entered.  And the result is `eSUCCESS`
exactly when the four steps, and no cleanup, were entered and the start
returned `eSUCCESS`. -/
theorem reload_pipeline_order (c : Header) (env : Env) (t : Trace)
    (hne : c.eERR_RELOAD_SAP ≠ c.eSUCCESS) :
    ∃ es, (wifi_qsap_reload_softap c env t).2 = t ++ es ∧
      (pipelineSteps es <+: pipeline ∨
        pipelineSteps es = pipeline ++ ["wifi_qsap_unload_driver"]) ∧
      ((wifi_qsap_stop_softap c env t).1 ≠ c.eSUCCESS →
        wifi_qsap_reload_softap c env t =
          (c.eERR_RELOAD_SAP, (wifi_qsap_stop_softap c env t).2) ∧
        pipelineSteps es = ["wifi_qsap_stop_softap"]) ∧
      ((wifi_qsap_stop_softap c env t).1 = c.eSUCCESS →
        (reload_unload c env t).1 = c.eSUCCESS →
        (reload_load c env t).1 ≠ c.eSUCCESS →
        wifi_qsap_reload_softap c env t = (c.eERR_RELOAD_SAP, (reload_load c env t).2) ∧
        pipelineSteps es =
          ["wifi_qsap_stop_softap", "wifi_qsap_unload_driver", "wifi_qsap_load_driver"]) ∧
      ((wifi_qsap_reload_softap c env t).1 = c.eSUCCESS ↔
        pipelineSteps es = pipeline ∧ (reload_start c env t).1 = c.eSUCCESS) := by
  have s1 : Steps ["wifi_qsap_stop_softap"] t (wifi_qsap_stop_softap c env t).2 :=
    stop_softap_steps c env t
  have s2 : Steps ["wifi_qsap_stop_softap", "wifi_qsap_unload_driver"] t
      (reload_unload c env t).2 := s1.join (unload_driver_steps env _)
  have s3 : Steps ["wifi_qsap_stop_softap", "wifi_qsap_unload_driver",
      "wifi_qsap_load_driver"] t (reload_load c env t).2 :=
    (s2.pause (e := .usleep 500000) rfl).join (load_driver_steps env _)
  have s4 : Steps pipeline t (reload_start c env t).2 :=
    (s3.pause (e := .sleep 1) rfl).join (start_softap_steps c env _)
  have s5 : Steps (pipeline ++ ["wifi_qsap_unload_driver"]) t
      (wifi_qsap_unload_driver env (reload_start c env t).2).2 :=
    s4.join (unload_driver_steps env _)
  rw [wifi_qsap_reload_softap_eq]
  by_cases h1 : c.eSUCCESS = (wifi_qsap_stop_softap c env t).1
  swap
  · obtain ⟨es, hes, hsteps⟩ := s1
    rw [if_pos h1]
    refine ⟨es, hes, Or.inl (by rw [hsteps]; decide), fun _ => ⟨rfl, hsteps⟩,
      fun h => absurd h.symm h1, ?_⟩
    rw [hsteps]
    exact ⟨fun h => absurd h hne, fun h => absurd h.1 (by decide)⟩
  rw [if_neg (not_not.2 h1)]
  by_cases h2 : c.eSUCCESS = (reload_unload c env t).1
  swap
  · obtain ⟨es, hes, hsteps⟩ := s2
    rw [if_pos h2]
    refine ⟨es, hes, Or.inl (by rw [hsteps]; decide), fun h => absurd h1.symm h,
      fun _ h => absurd h.symm h2, ?_⟩
    rw [hsteps]
    exact ⟨fun h => absurd h hne, fun h => absurd h.1 (by decide)⟩
  rw [if_neg (not_not.2 h2)]
  by_cases h3 : c.eSUCCESS = (reload_load c env t).1
  swap
  · obtain ⟨es, hes, hsteps⟩ := s3
    rw [if_pos h3]
    refine ⟨es, hes, Or.inl (by rw [hsteps]; decide), fun h => absurd h1.symm h,
      fun _ _ _ => ⟨rfl, hsteps⟩, ?_⟩
    rw [hsteps]
    exact ⟨fun h => absurd h hne, fun h => absurd h.1 (by decide)⟩
  rw [if_neg (not_not.2 h3)]
  by_cases h4 : c.eSUCCESS = (reload_start c env t).1
  swap
  · obtain ⟨es, hes, hsteps⟩ := s5
    rw [if_pos h4]
    refine ⟨es, hes, Or.inr hsteps, fun h => absurd h1.symm h,
      fun _ _ h => absurd h3.symm h, ?_⟩
    rw [hsteps]
    exact ⟨fun h => absurd h hne, fun h => absurd h.1 (by decide)⟩
  · obtain ⟨es, hes, hsteps⟩ := s4
    rw [if_neg (not_not.2 h4)]
    refine ⟨es, hes, Or.inl (by rw [hsteps]), fun h => absurd h1.symm h,
      fun _ _ h => absurd h3.symm h, ?_⟩
    exact ⟨fun _ => ⟨hsteps, h4.symm⟩, fun _ => rfl⟩

/-- C15 at `envNoInterface` (the stop fails), `envNoImage` (the load fails) and
`envIdle` (all four steps succeed). -/
theorem reload_pipeline_order_witness :
    (∃ es, (wifi_qsap_reload_softap sampleHeader envNoInterface []).2 = [] ++ es ∧
      wifi_qsap_reload_softap sampleHeader envNoInterface [] =
        (sampleHeader.eERR_RELOAD_SAP,
          (wifi_qsap_stop_softap sampleHeader envNoInterface []).2) ∧
      pipelineSteps es = ["wifi_qsap_stop_softap"]) ∧
    (∃ es, (wifi_qsap_reload_softap sampleHeader envNoImage []).2 = [] ++ es ∧
      wifi_qsap_reload_softap sampleHeader envNoImage [] =
        (sampleHeader.eERR_RELOAD_SAP, (reload_load sampleHeader envNoImage []).2) ∧
      pipelineSteps es =
        ["wifi_qsap_stop_softap", "wifi_qsap_unload_driver", "wifi_qsap_load_driver"]) ∧
    (∃ es, (wifi_qsap_reload_softap sampleHeader envIdle []).2 = [] ++ es ∧
      pipelineSteps es = pipeline ∧
      (wifi_qsap_reload_softap sampleHeader envIdle []).1 = sampleHeader.eSUCCESS) := by
  obtain ⟨es1, hes1, -, hstop, -, -⟩ :=
    reload_pipeline_order sampleHeader envNoInterface [] (by decide)
  obtain ⟨es2, hes2, -, -, hload, -⟩ :=
    reload_pipeline_order sampleHeader envNoImage [] (by decide)
  obtain ⟨es3, hes3, -, -, -, hiff⟩ :=
    reload_pipeline_order sampleHeader envIdle [] (by decide)
  have a := hstop (by decide)
  have b := hload (by decide) (by decide) (by decide)
  have d : (wifi_qsap_reload_softap sampleHeader envIdle []).1 = sampleHeader.eSUCCESS := by
    decide
  exact ⟨⟨es1, hes1, a.1, a.2⟩, ⟨es2, hes2, b.1, b.2⟩, ⟨es3, hes3, (hiff.1 d).1, d⟩⟩

theorem entries_eq_count_steps {fn : String} (hfn : fn ∈ pipeline) (es : Trace) :
    entries fn es = (pipelineSteps es).count fn := by
  induction es with
  | nil => rfl
  | cons e es ih =>
    have hcons : entries fn (e :: es) = entries fn [e] + entries fn es :=
      entries_append fn [e] es
    have hsteps : pipelineSteps (e :: es) = pipelineSteps [e] ++ pipelineSteps es :=
      pipelineSteps_append [e] es
    rw [hcons, hsteps, List.count_append, ih]
    congr 1
    cases e with
    | enter fn' =>
      by_cases h : fn' = fn
      · subst h
        simp [entries, pipelineSteps, hfn]
      · by_cases hp : fn' ∈ pipeline
        · simp [entries, pipelineSteps, hp, h, Ne.symm h]
        · simp [entries, pipelineSteps, hp, h, Ne.symm h]
    | _ => simp [entries, pipelineSteps]

/-- C16: when `wifi_qsap_reload_softap` gets as far as its call of
`wifi_qsap_start_softap` and that start fails, the reload returns
`eERR_RELOAD_SAP` (the start having returned `eERR_START_SAP`), and it enters
`wifi_qsap_unload_driver` once up to the end of the start and once more, and
only once, right after it. -/
theorem reload_cleanup_after_failed_start (c : Header) (env : Env) (t : Trace)
    (h1 : (wifi_qsap_stop_softap c env t).1 = c.eSUCCESS)
    (h2 : (reload_unload c env t).1 = c.eSUCCESS)
    (h3 : (reload_load c env t).1 = c.eSUCCESS)
    (h4 : (reload_start c env t).1 ≠ c.eSUCCESS) :
    (wifi_qsap_reload_softap c env t).1 = c.eERR_RELOAD_SAP ∧
    (reload_start c env t).1 = c.eERR_START_SAP ∧
    ∃ pre post, (reload_start c env t).2 = t ++ pre ∧
      (wifi_qsap_reload_softap c env t).2 =
        t ++ pre ++ .enter "wifi_qsap_unload_driver" :: post ∧
      entries "wifi_qsap_unload_driver" pre = 1 ∧
      entries "wifi_qsap_unload_driver" post = 0 := by
  have s4 : Steps pipeline t (reload_start c env t).2 :=
    ((((stop_softap_steps c env t).join (unload_driver_steps env _)).pause
      (e := .usleep 500000) rfl).join (load_driver_steps env _) |>.pause
      (e := .sleep 1) rfl).join (start_softap_steps c env _)
  obtain ⟨pre, hpre, hsteps⟩ := s4
  obtain ⟨post, hpost, hpostP⟩ := wifi_qsap_unload_driver_emits (onlyEnters_ext [])
    env (reload_start c env t).2
  have hreload : wifi_qsap_reload_softap c env t =
      (c.eERR_RELOAD_SAP, (wifi_qsap_unload_driver env (reload_start c env t).2).2) := by
    rw [wifi_qsap_reload_softap_eq, if_neg (by simp [h1]), if_neg (by simp [h2]),
      if_neg (by simp [h3]), if_pos (Ne.symm h4)]
  refine ⟨by rw [hreload], ?_, pre, post, hpre, ?_, ?_, entries_eq_zero hpostP (by decide)⟩
  · rcases wifi_qsap_start_softap_result c env ((reload_load c env t).2 ++ [.sleep 1])
      with h | h
    · exact absurd h h4
    · exact h
  · rw [hreload]
    show (wifi_qsap_unload_driver env (reload_start c env t).2).2 = _
    rw [hpost, hpre]
    simp only [List.append_assoc, List.singleton_append]
  · rw [entries_eq_count_steps (by decide), hsteps]
    decide

/-- C16 at `envDown`: the drivers load, the service never comes up. -/
theorem reload_cleanup_after_failed_start_witness :
    (wifi_qsap_reload_softap sampleHeader envDown []).1 = sampleHeader.eERR_RELOAD_SAP ∧
    (reload_start sampleHeader envDown []).1 = sampleHeader.eERR_START_SAP ∧
    ∃ pre post, (reload_start sampleHeader envDown []).2 = [] ++ pre ∧
      (wifi_qsap_reload_softap sampleHeader envDown []).2 =
        [] ++ pre ++ .enter "wifi_qsap_unload_driver" :: post ∧
      entries "wifi_qsap_unload_driver" pre = 1 ∧
      entries "wifi_qsap_unload_driver" post = 0 :=
  reload_cleanup_after_failed_start sampleHeader envDown [] (by decide) (by decide)
    (by decide) (by decide)

/-! ### The start retries -/

theorem is_softap_enabled_ne_zero_iff (c : Header) (env : Env) (t : Trace)
    (hE : c.ENABLE ≠ 0) (hD : c.DISABLE = 0) :
    (is_softap_enabled c env t).1 ≠ 0 ↔
      (env.property_get (external t) "init.svc.hostapd").1 ≠ 0 ∧
      (env.property_get (external t) "init.svc.hostapd").2 = "running" := by
  unfold is_softap_enabled
  simp only []
  split_ifs with h
  · exact ⟨fun _ => h, fun _ => hE⟩
  · exact ⟨fun h' => absurd hD h', fun h' => absurd h' h⟩

theorem NoneRunning.also {e : Event} {es : Trace}
    (he : ∀ key ret value, e = .property_get key ret value → ¬ (ret ≠ 0 ∧ value = "running"))
    (hes : NoneRunning es) : NoneRunning (e :: es) := by
  intro key ret value hmem
  rcases List.mem_cons.1 hmem with h | h
  · exact he key ret value h.symm
  · exact hes key ret value h

/-- The retry loop with `retry` rounds left: it either succeeds, right after a status
read that found the service running and that is the first to do so, or it
fails after all its rounds, none of which found the service running. -/
theorem start_softap_loop_rounds (c : Header) (env : Env)
    (hE : c.ENABLE ≠ 0) (hD : c.DISABLE = 0) (retry : Nat) (t : Trace) :
    ∃ es, (start_softap_loop c env (retry + 1) t).2 = t ++ es ∧
      (startTriggers es).length ≤ retry ∧
      (((start_softap_loop c env (retry + 1) t).1 = c.eSUCCESS ∧
          ∃ pre ret value,
            es = pre ++ [.property_set "ctl.start" "hostapd" 0, .sleep 1,
              .property_get "init.svc.hostapd" ret value] ∧
            (ret ≠ 0 ∧ value = "running") ∧ NoneRunning pre) ∨
        ((start_softap_loop c env (retry + 1) t).1 = c.eERR_START_SAP ∧
          (startTriggers es).length = retry ∧ NoneRunning es)) := by
  induction retry generalizing t with
  | zero =>
    exact ⟨[], by simp [start_softap_loop], by simp [startTriggers],
      Or.inr ⟨rfl, rfl, fun _ _ _ h => absurd h (List.not_mem_nil _)⟩⟩
  | succ n ih =>
    rw [start_softap_loop]
    simp only []
    by_cases hset : env.property_set (external t) "ctl.start" "hostapd" = 0
    · rw [if_neg (not_not.2 hset), hset]
      have htr := is_softap_enabled_trace c env
        (t ++ [.property_set "ctl.start" "hostapd" 0] ++ [.sleep 1])
      have hiff := is_softap_enabled_ne_zero_iff c env
        (t ++ [.property_set "ctl.start" "hostapd" 0] ++ [.sleep 1]) hE hD
      generalize is_softap_enabled c env
        (t ++ [.property_set "ctl.start" "hostapd" 0] ++ [.sleep 1]) = up at htr hiff ⊢
      generalize env.property_get
        (external (t ++ [.property_set "ctl.start" "hostapd" 0] ++ [.sleep 1]))
        "init.svc.hostapd" = status at htr hiff
      by_cases hup : up.1 ≠ 0
      · rw [if_pos hup]
        refine ⟨[.property_set "ctl.start" "hostapd" 0, .sleep 1,
          .property_get "init.svc.hostapd" status.1 status.2], ?_, ?_, ?_⟩
        · show up.2 = _
          rw [htr]
          simp
        · simp [startTriggers]
        · exact Or.inl ⟨rfl, [], status.1, status.2, rfl, hiff.1 hup,
            fun _ _ _ h => absurd h (List.not_mem_nil _)⟩
      · rw [if_neg hup]
        have hdown := mt hiff.2 hup
        obtain ⟨es, hes, hlen, hcase⟩ := ih up.2
        have hround : ∀ l, NoneRunning l → NoneRunning
            (.property_set "ctl.start" "hostapd" 0 :: .sleep 1 ::
              .property_get "init.svc.hostapd" status.1 status.2 :: l) := fun l h =>
          NoneRunning.also (fun _ _ _ h' => by cases h')
            (NoneRunning.also (fun _ _ _ h' => by cases h')
              (NoneRunning.also (fun _ _ _ h' => by cases h'; exact hdown) h))
        refine ⟨.property_set "ctl.start" "hostapd" 0 :: .sleep 1 ::
          .property_get "init.svc.hostapd" status.1 status.2 :: es, ?_, ?_, ?_⟩
        · rw [hes, htr]
          simp
        · simp [startTriggers_trigger, startTriggers_sleep, startTriggers_property_get, hlen]
        · rcases hcase with ⟨hr, pre, ret, value, hpre, hrun, hnone⟩ | ⟨hr, hl, hnone⟩
          · refine Or.inl ⟨hr, .property_set "ctl.start" "hostapd" 0 :: .sleep 1 ::
              .property_get "init.svc.hostapd" status.1 status.2 :: pre, ret, value, ?_, hrun,
              hround pre hnone⟩
            rw [hpre]
            simp
          · refine Or.inr ⟨hr, ?_, hround es hnone⟩
            simp [startTriggers_trigger, startTriggers_sleep, startTriggers_property_get, hl]
    · rw [if_pos hset]
      obtain ⟨es, hes, hlen, hcase⟩ := ih (t ++ [.property_set "ctl.start" "hostapd"
        (env.property_set (external t) "ctl.start" "hostapd")])
      refine ⟨.property_set "ctl.start" "hostapd"
        (env.property_set (external t) "ctl.start" "hostapd") :: es, by rw [hes]; simp, ?_, ?_⟩
      · simp [startTriggers_trigger, hlen]
      · rcases hcase with ⟨hr, pre, ret, value, hpre, hrun, hnone⟩ | ⟨hr, hl, hnone⟩
        · refine Or.inl ⟨hr, .property_set "ctl.start" "hostapd"
              (env.property_set (external t) "ctl.start" "hostapd") :: pre, ret, value, ?_, hrun,
            NoneRunning.also (fun _ _ _ h' => by cases h') hnone⟩
          rw [hpre]
          simp
        · refine Or.inr ⟨hr, ?_, NoneRunning.also (fun _ _ _ h' => by cases h') hnone⟩
          simp [startTriggers_trigger, hl]

/-- C17: `wifi_qsap_start_softap` makes at most 3 start triggers, and it returns
`eSUCCESS` exactly when for some `k` from 1 to 3 its trace ends with the `k`-th
trigger, accepted (result 0), the one-second sleep and a status read that
found the service running, no earlier status read having found it so: it has
then returned right after that read, with exactly `k` triggers made. -/
theorem start_softap_success_iff (c : Header) (env : Env) (t : Trace)
    (hE : c.ENABLE ≠ 0) (hD : c.DISABLE = 0) (hne : c.eERR_START_SAP ≠ c.eSUCCESS) :
    ∃ es, (wifi_qsap_start_softap c env t).2 = t ++ .enter "wifi_qsap_start_softap" :: es ∧
      (startTriggers es).length ≤ 3 ∧
      ((wifi_qsap_start_softap c env t).1 = c.eSUCCESS ↔
        ∃ k, 1 ≤ k ∧ k ≤ 3 ∧ (startTriggers es).length = k ∧
          ∃ pre ret value,
            es = pre ++ [.property_set "ctl.start" "hostapd" 0, .sleep 1,
              .property_get "init.svc.hostapd" ret value] ∧
            (startTriggers pre).length + 1 = k ∧
            (ret ≠ 0 ∧ value = "running") ∧ NoneRunning pre) := by
  obtain ⟨es, hes, hlen, hcase⟩ := start_softap_loop_rounds c env hE hD 3
    (t ++ [.enter "wifi_qsap_start_softap"])
  refine ⟨es, by rw [wifi_qsap_start_softap, hes]; simp, hlen, ?_⟩
  have hcount : ∀ pre ret value,
      es = pre ++ [.property_set "ctl.start" "hostapd" 0, .sleep 1,
        .property_get "init.svc.hostapd" ret value] →
      (startTriggers es).length = (startTriggers pre).length + 1 := by
    intro pre ret value h
    rw [h, startTriggers_append, startTriggers_trigger, startTriggers_sleep,
      startTriggers_property_get]
    simp [startTriggers]
  constructor
  · intro hok
    rcases hcase with ⟨-, pre, ret, value, hpre, hrun, hnone⟩ | ⟨hr, -, -⟩
    · have := hcount pre ret value hpre
      exact ⟨(startTriggers es).length, by omega, hlen, rfl, pre, ret, value, hpre,
        this.symm, hrun, hnone⟩
    · exact absurd (hr.symm.trans hok) hne
  · rintro ⟨k, -, -, -, pre, ret, value, hpre, -, hrun, -⟩
    rcases hcase with ⟨hr, -⟩ | ⟨-, -, hnone⟩
    · exact hr
    · exact absurd hrun (hnone "init.svc.hostapd" ret value (by rw [hpre]; simp))

/-- C17 at `envSecondTry`: the first trigger is refused, the second is accepted and
the service comes up, so `k` is 2. -/
theorem start_softap_success_iff_witness :
    (wifi_qsap_start_softap sampleHeader envSecondTry []).1 = sampleHeader.eSUCCESS ∧
    ∃ es, (wifi_qsap_start_softap sampleHeader envSecondTry []).2 =
        [] ++ .enter "wifi_qsap_start_softap" :: es ∧
      (startTriggers es).length ≤ 3 ∧
      ∃ k, 1 ≤ k ∧ k ≤ 3 ∧ (startTriggers es).length = k ∧
        ∃ pre ret value,
          es = pre ++ [.property_set "ctl.start" "hostapd" 0, .sleep 1,
            .property_get "init.svc.hostapd" ret value] ∧
          (startTriggers pre).length + 1 = k ∧
          (ret ≠ 0 ∧ value = "running") ∧ NoneRunning pre := by
  obtain ⟨es, hes, hlen, hiff⟩ := start_softap_success_iff sampleHeader envSecondTry []
    (by decide) rfl (by decide)
  have hok : (wifi_qsap_start_softap sampleHeader envSecondTry []).1 =
      sampleHeader.eSUCCESS := by decide
  exact ⟨hok, es, hes, hlen, hiff.1 hok⟩

/-! ### The removal retries -/

theorem AllBusy.more {e : Event} {es : Trace}
    (he : ∀ name flags ret errno, e = .delete_module name flags ret errno →
      ret < 0 ∧ errno = EAGAIN)
    (hes : AllBusy es) : AllBusy (e :: es) := by
  intro name flags ret errno hmem
  rcases List.mem_cons.1 hmem with h | h
  · exact he name flags ret errno h.symm
  · exact hes name flags ret errno h

/-- The removal loop with `maxtry` rounds left: it ends with the first call that
does not fail busy and returns that call's result, or all its calls fail busy
and it runs out of rounds. -/
theorem rmmod_loop_rounds (env : Env) (modname : String) (maxtry : Nat) (ret : Int)
    (t : Trace) :
    ∃ es, (rmmod_loop env modname maxtry ret t).2 = t ++ es ∧
      deleteCalls es = List.replicate (deleteCalls es).length modname ∧
      (deleteCalls es).length ≤ maxtry ∧
      ((∃ pre r errno,
          es = pre ++ [.delete_module modname (O_NONBLOCK ||| O_EXCL) r errno] ∧
          ¬ (r < 0 ∧ errno = EAGAIN) ∧
          (rmmod_loop env modname maxtry ret t).1 = r ∧ AllBusy pre) ∨
        (AllBusy es ∧ (deleteCalls es).length = maxtry ∧
          (maxtry = 0 → (rmmod_loop env modname maxtry ret t).1 = ret) ∧
          (0 < maxtry → (rmmod_loop env modname maxtry ret t).1 < 0))) := by
  induction maxtry generalizing ret t with
  | zero =>
    exact ⟨[], by simp [rmmod_loop], rfl, le_refl _,
      Or.inr ⟨fun _ _ _ _ h => absurd h (List.not_mem_nil _), rfl, fun _ => rfl,
        fun h => absurd h (lt_irrefl _)⟩⟩
  | succ n ih =>
    rw [rmmod_loop]
    generalize env.delete_module (external t) modname (O_NONBLOCK ||| O_EXCL) = r
    by_cases hbusy : r.1 < 0 ∧ r.2 = EAGAIN
    · rw [if_pos hbusy]
      obtain ⟨es, hes, hnames, hlen, hcase⟩ := ih r.1
        (t ++ [.delete_module modname (O_NONBLOCK ||| O_EXCL) r.1 r.2] ++ [.usleep 50000])
      have hround : ∀ l, AllBusy l → AllBusy
          (.delete_module modname (O_NONBLOCK ||| O_EXCL) r.1 r.2 :: .usleep 50000 :: l) :=
        fun l h => AllBusy.more (fun _ _ _ _ h' => by cases h'; exact hbusy)
          (AllBusy.more (fun _ _ _ _ h' => by cases h') h)
      refine ⟨.delete_module modname (O_NONBLOCK ||| O_EXCL) r.1 r.2 :: .usleep 50000 :: es,
        by rw [hes]; simp, ?_, ?_, ?_⟩
      · rw [deleteCalls_delete, deleteCalls_usleep, List.length_cons, List.replicate_succ,
          ← hnames]
      · rw [deleteCalls_delete, deleteCalls_usleep, List.length_cons]
        omega
      · rcases hcase with ⟨pre, r', errno, hpre, hnot, hres, hall⟩ | ⟨hall, hl, h0, hpos⟩
        · refine Or.inl ⟨.delete_module modname (O_NONBLOCK ||| O_EXCL) r.1 r.2 ::
            .usleep 50000 :: pre, r', errno, by rw [hpre]; simp, hnot, hres, hround pre hall⟩
        · refine Or.inr ⟨hround es hall, ?_, fun h => absurd h (Nat.succ_ne_zero n), fun _ => ?_⟩
          · rw [deleteCalls_delete, deleteCalls_usleep, List.length_cons, hl]
          · rcases Nat.eq_zero_or_pos n with hn | hn
            · subst hn
              rw [h0 rfl]
              exact hbusy.1
            · exact hpos hn
    · rw [if_neg hbusy]
      refine ⟨[.delete_module modname (O_NONBLOCK ||| O_EXCL) r.1 r.2], rfl, ?_, ?_, ?_⟩
      · simp [deleteCalls]
      · simp [deleteCalls]
      · exact Or.inl ⟨[], r.1, r.2, rfl, hbusy, rfl,
          fun _ _ _ _ h => absurd h (List.not_mem_nil _)⟩

/-- C18: `rmmod` calls `delete_module` on its module at most 10 times.  Either one of
these calls does not fail busy: then it is the last call, every call before it
failed busy, and its result is what `rmmod` returns (0 on success, non-zero on
another failure); or all 10 calls fail busy.  In particular, when the first
call does not fail busy, it is the only call. -/
theorem rmmod_stops_at_first_non_busy (env : Env) (modname : String) (t : Trace) :
    (∃ es, (rmmod env modname t).2 = t ++ es ∧
      deleteCalls es = List.replicate (deleteCalls es).length modname ∧
      (deleteCalls es).length ≤ 10 ∧
      ((∃ pre r errno,
          es = pre ++ [.delete_module modname (O_NONBLOCK ||| O_EXCL) r errno] ∧
          ¬ (r < 0 ∧ errno = EAGAIN) ∧ (rmmod env modname t).1 = r ∧ AllBusy pre) ∨
        (AllBusy es ∧ (deleteCalls es).length = 10 ∧ (rmmod env modname t).1 < 0))) ∧
    (¬ ((env.delete_module (external t) modname (O_NONBLOCK ||| O_EXCL)).1 < 0 ∧
        (env.delete_module (external t) modname (O_NONBLOCK ||| O_EXCL)).2 = EAGAIN) →
      rmmod env modname t =
        ((env.delete_module (external t) modname (O_NONBLOCK ||| O_EXCL)).1,
          t ++ [.delete_module modname (O_NONBLOCK ||| O_EXCL)
            (env.delete_module (external t) modname (O_NONBLOCK ||| O_EXCL)).1
            (env.delete_module (external t) modname (O_NONBLOCK ||| O_EXCL)).2])) := by
  constructor
  · obtain ⟨es, hes, hnames, hlen, hcase⟩ := rmmod_loop_rounds env modname 10 0 t
    refine ⟨es, hes, hnames, hlen, ?_⟩
    rcases hcase with h | ⟨hall, hl, -, hpos⟩
    · exact Or.inl h
    · exact Or.inr ⟨hall, hl, hpos (by decide)⟩
  · intro h
    rw [rmmod, rmmod_loop, if_neg h]

/-- C18 at `envHeld`, where the first removal fails with `EBUSY`, not `EAGAIN`: one
call, whose result -1 is returned. -/
theorem rmmod_stops_at_first_non_busy_witness :
    rmmod envHeld "wlan" [] =
      (-1, [] ++ [.delete_module "wlan" (O_NONBLOCK ||| O_EXCL) (-1) 16]) :=
  (rmmod_stops_at_first_non_busy envHeld "wlan" []).2 (by decide)

/-! ### Probes and removals of the unload -/

theorem deleteCalls_append (es fs : Trace) :
    deleteCalls (es ++ fs) = deleteCalls es ++ deleteCalls fs := by
  simp [deleteCalls]

theorem probeCalls_append (es fs : Trace) :
    probeCalls (es ++ fs) = probeCalls es + probeCalls fs := by
  simp [probeCalls]

theorem Removes.chain {l m : List String} {j k : Nat} {t u v : Trace}
    (h1 : Removes l j t u) (h2 : Removes m k u v) : Removes (l ++ m) (j + k) t v := by
  obtain ⟨es, rfl, hes, hps⟩ := h1
  obtain ⟨fs, rfl, hfs, hqs⟩ := h2
  exact ⟨es ++ fs, by simp, by rw [deleteCalls_append, hes, hfs],
    by rw [probeCalls_append, hps, hqs]⟩

theorem Removes.other {l : List String} {k : Nat} {t u : Trace} (h : Removes l k t u)
    {e : Event} (hd : deleteCalls [e] = []) (hp : probeCalls [e] = 0) :
    Removes l k t (u ++ [e]) := by
  have : Removes [] 0 u (u ++ [e]) := ⟨[e], rfl, hd, hp⟩
  simpa using h.chain this

theorem check_driver_loaded_removes (env : Env) (tag : String) (t : Trace) :
    Removes [] 1 t (check_driver_loaded env tag t).2 := by
  unfold check_driver_loaded
  split
  · exact ⟨_, rfl, rfl, rfl⟩
  · exact ⟨_, rfl, rfl, rfl⟩

theorem rmmod_removes (env : Env) (modname : String) (t : Trace) :
    ∃ n, Removes (List.replicate n modname) 0 t (rmmod env modname t).2 := by
  obtain ⟨es, hes, hnames, -, -⟩ := rmmod_loop_rounds env modname 10 0 t
  obtain ⟨es', hes', hP⟩ := rmmod_emits (P := fun e => e.isRemoval = true) (fun _ h => h)
    env modname t
  have : es' = es := List.append_cancel_left (hes'.symm.trans hes)
  subst this
  refine ⟨(deleteCalls es').length, es', hes, hnames, ?_⟩
  rw [probeCalls, List.countP_eq_zero]
  intro e he
  have := hP e he
  cases e <;> simp_all [Event.isRemoval]

theorem wifi_qsap_unload_driver_eq (env : Env) (t : Trace) :
    wifi_qsap_unload_driver env t =
      (0, (run_system env SDIO_POLLING_OFF
        (if (unload_remove_main env t).1 ≠ 0 then (unload_remove_main env t).2
          else (unload_remove_bus env t).2)).2) := by
  have : unload_modules env (unload_driver_start env t) =
      if (unload_remove_main env t).1 ≠ 0 then (1, (unload_remove_main env t).2)
      else if (unload_remove_bus env t).1 ≠ 0 then (1, (unload_remove_bus env t).2)
      else (0, (unload_remove_bus env t).2) := rfl
  show (0, (run_system env SDIO_POLLING_OFF
    (unload_modules env (unload_driver_start env t)).2).2) = _
  rw [this]
  split_ifs <;> rfl

theorem unload_remove_main_removes (env : Env) (t : Trace) :
    ∃ a, Removes (List.replicate a WIFI_DRIVER_MODULE_NAME) 1 t (unload_remove_main env t).2 ∧
      (0 < a → (unload_probe_main env t).1 ≠ 0) := by
  have s0 : Removes [] 0 t (unload_driver_start env t) :=
    ⟨[.enter "wifi_qsap_unload_driver",
      .system SDIO_POLLING_ON
        (env.system (external (t ++ [.enter "wifi_qsap_unload_driver"])) SDIO_POLLING_ON)],
      by simp [unload_driver_start, run_system], rfl, rfl⟩
  have s1 : Removes [] 1 t (unload_probe_main env t).2 := by
    simpa using s0.chain (check_driver_loaded_removes env _ _)
  unfold unload_remove_main
  split_ifs with h
  · obtain ⟨a, ha⟩ := rmmod_removes env WIFI_DRIVER_MODULE_NAME (unload_probe_main env t).2
    exact ⟨a, by simpa using s1.chain ha, fun _ => h⟩
  · exact ⟨0, s1, fun h0 => absurd h0 (lt_irrefl _)⟩

theorem unload_remove_bus_removes (env : Env) (t : Trace) (a : Nat)
    (h : Removes (List.replicate a WIFI_DRIVER_MODULE_NAME) 1 t (unload_remove_main env t).2) :
    ∃ b, Removes (List.replicate a WIFI_DRIVER_MODULE_NAME ++
        List.replicate b WIFI_SDIO_IF_DRIVER_MODULE_NAME) 2 t (unload_remove_bus env t).2 ∧
      (0 < b → (unload_probe_bus env t).1 ≠ 0) := by
  have s2 : Removes (List.replicate a WIFI_DRIVER_MODULE_NAME) 2 t
      (unload_probe_bus env t).2 := by
    simpa using (h.other (e := .sched_yield) rfl rfl).chain
      (check_driver_loaded_removes env _ _)
  unfold unload_remove_bus
  split_ifs with hp
  · obtain ⟨b, hb⟩ := rmmod_removes env WIFI_SDIO_IF_DRIVER_MODULE_NAME
      (unload_probe_bus env t).2
    exact ⟨b, by simpa using s2.chain hb, fun _ => hp⟩
  · exact ⟨0, by simpa using s2, fun h0 => absurd h0 (lt_irrefl _)⟩

/-- C19: the `delete_module` calls of `wifi_qsap_unload_driver` are some on the main
wifi module followed by some on the bus-interface module.  There are calls on
the main module only if the probe taken right before found it loaded, and
calls on the bus-interface module only if the main module is out of the way
and the probe taken right before found the bus-interface module loaded.  When
both probes find nothing there is no `delete_module` call; when the removal of
the main module fails there is none on the bus-interface module and the first
probe is the only one taken. -/
theorem unload_driver_removals (env : Env) (t : Trace) :
    ∃ es a b, (wifi_qsap_unload_driver env t).2 = t ++ es ∧
      deleteCalls es = List.replicate a WIFI_DRIVER_MODULE_NAME ++
        List.replicate b WIFI_SDIO_IF_DRIVER_MODULE_NAME ∧
      (0 < a → (unload_probe_main env t).1 ≠ 0) ∧
      (0 < b → (unload_remove_main env t).1 = 0 ∧ (unload_probe_bus env t).1 ≠ 0) ∧
      ((unload_probe_main env t).1 = 0 → (unload_probe_bus env t).1 = 0 →
        deleteCalls es = [] ∧ probeCalls es = 2) ∧
      ((unload_remove_main env t).1 ≠ 0 → b = 0 ∧ probeCalls es = 1) := by
  obtain ⟨a, ha, hmain⟩ := unload_remove_main_removes env t
  obtain ⟨b, hb, hbus⟩ := unload_remove_bus_removes env t a ha
  have hskip : (unload_probe_main env t).1 = 0 → (unload_remove_main env t).1 = 0 := by
    intro h
    simp [unload_remove_main, h]
  rw [wifi_qsap_unload_driver_eq]
  by_cases hfail : (unload_remove_main env t).1 ≠ 0
  · rw [if_pos hfail]
    obtain ⟨es, hes, hdel, hprobe⟩ := ha.other
      (e := .system SDIO_POLLING_OFF
        (env.system (external (unload_remove_main env t).2) SDIO_POLLING_OFF)) rfl rfl
    refine ⟨es, a, 0, hes, by simpa using hdel, hmain, fun h0 => absurd h0 (lt_irrefl _),
      fun h0 => absurd (hskip h0) hfail, fun _ => ⟨rfl, hprobe⟩⟩
  · rw [if_neg hfail]
    obtain ⟨es, hes, hdel, hprobe⟩ := hb.other
      (e := .system SDIO_POLLING_OFF
        (env.system (external (unload_remove_bus env t).2) SDIO_POLLING_OFF)) rfl rfl
    refine ⟨es, a, b, hes, hdel, hmain, fun h0 => ⟨not_not.1 hfail, hbus h0⟩, ?_,
      fun h0 => absurd h0 hfail⟩
    intro h1 h2
    have ha0 : a = 0 := by
      rcases Nat.eq_zero_or_pos a with h | h
      · exact h
      · exact absurd h1 (hmain h)
    have hb0 : b = 0 := by
      rcases Nat.eq_zero_or_pos b with h | h
      · exact h
      · exact absurd h2 (hbus h)
    rw [hdel, ha0, hb0]
    exact ⟨rfl, hprobe⟩

/-- C19 at `envHeld` (the main module is loaded and its removal fails) and at
`envIdle` (nothing is loaded). -/
theorem unload_driver_removals_witness :
    (∃ es a, (wifi_qsap_unload_driver envHeld []).2 = [] ++ es ∧
      deleteCalls es = List.replicate a WIFI_DRIVER_MODULE_NAME ++
        List.replicate 0 WIFI_SDIO_IF_DRIVER_MODULE_NAME ∧
      probeCalls es = 1) ∧
    (∃ es, (wifi_qsap_unload_driver envIdle []).2 = [] ++ es ∧
      deleteCalls es = [] ∧ probeCalls es = 2) := by
  obtain ⟨es, a, b, hes, hdel, -, -, -, hfail⟩ := unload_driver_removals envHeld []
  obtain ⟨es', a', b', hes', -, -, -, hnone, -⟩ := unload_driver_removals envIdle []
  have h1 := hfail (by decide)
  have h2 := hnone (by decide) (by decide)
  exact ⟨⟨es, a, hes, by rw [hdel, h1.1], h1.2⟩, ⟨es', hes', h2.1, h2.2⟩⟩
/-! ### The two unload functions -/

theorem external_append (t es : Trace) : external (t ++ es) = external t ++ external es := by
  simp [external]

theorem Par.outside {t t' u u' : Trace} (h : external t = external t')
    (hp : Par t t' u u') : external u = external u' := by
  obtain ⟨es, rfl, rfl⟩ := hp
  rw [external_append, external_append, h]

theorem Par.follow {t t' u u' v v' : Trace} (h1 : Par t t' u u') (h2 : Par u u' v v') :
    Par t t' v v' := by
  obtain ⟨es, rfl, rfl⟩ := h1
  obtain ⟨fs, rfl, rfl⟩ := h2
  exact ⟨es ++ fs, by simp, by simp⟩

theorem Par.event {t t' u u' : Trace} (h : Par t t' u u') (e : Event) :
    Par t t' (u ++ [e]) (u' ++ [e]) :=
  h.follow ⟨[e], rfl, rfl⟩

theorem run_system_par (env : Env) (cmd : String) {t t' : Trace}
    (h : external t = external t') :
    Par t t' (run_system env cmd t).2 (run_system env cmd t').2 := by
  unfold run_system
  rw [h]
  exact ⟨_, rfl, rfl⟩

theorem check_driver_loaded_par (env : Env) (tag : String) {t t' : Trace}
    (h : external t = external t') :
    (check_driver_loaded env tag t).1 = (check_driver_loaded env tag t').1 ∧
    Par t t' (check_driver_loaded env tag t).2 (check_driver_loaded env tag t').2 := by
  unfold check_driver_loaded
  rw [h]
  cases env.fopen (external t') "/proc/modules" with
  | none => exact ⟨rfl, _, rfl, rfl⟩
  | some proc => exact ⟨rfl, _, rfl, rfl⟩

theorem rmmod_loop_par (env : Env) (modname : String) (maxtry : Nat) (ret : Int)
    {t t' : Trace} (h : external t = external t') :
    (rmmod_loop env modname maxtry ret t).1 = (rmmod_loop env modname maxtry ret t').1 ∧
    Par t t' (rmmod_loop env modname maxtry ret t).2
      (rmmod_loop env modname maxtry ret t').2 := by
  induction maxtry generalizing ret t t' with
  | zero => exact ⟨rfl, [], by simp [rmmod_loop], by simp [rmmod_loop]⟩
  | succ n ih =>
    rw [rmmod_loop, rmmod_loop, h]
    generalize env.delete_module (external t') modname (O_NONBLOCK ||| O_EXCL) = r
    have hp : Par t t'
        (t ++ [.delete_module modname (O_NONBLOCK ||| O_EXCL) r.1 r.2])
        (t' ++ [.delete_module modname (O_NONBLOCK ||| O_EXCL) r.1 r.2]) := ⟨_, rfl, rfl⟩
    split_ifs
    · have hp2 := hp.event (.usleep 50000)
      have := ih r.1 (Par.outside h hp2)
      exact ⟨this.1, hp2.follow this.2⟩
    · exact ⟨rfl, hp⟩

/-- One step of the unload functions, run from two traces that look alike from
outside. -/
theorem unload_step_par (env : Env) (tag name : String) {t t' : Trace}
    (h : external t = external t') :
    (if (check_driver_loaded env tag t).1 ≠ 0
      then rmmod env name (check_driver_loaded env tag t).2
      else (0, (check_driver_loaded env tag t).2)).1 =
    (if (check_driver_loaded env tag t').1 ≠ 0
      then rmmod env name (check_driver_loaded env tag t').2
      else (0, (check_driver_loaded env tag t').2)).1 ∧
    Par t t'
      (if (check_driver_loaded env tag t).1 ≠ 0
        then rmmod env name (check_driver_loaded env tag t).2
        else (0, (check_driver_loaded env tag t).2)).2
      (if (check_driver_loaded env tag t').1 ≠ 0
        then rmmod env name (check_driver_loaded env tag t').2
        else (0, (check_driver_loaded env tag t').2)).2 := by
  obtain ⟨hr, hp⟩ := check_driver_loaded_par env tag h
  rw [hr]
  split_ifs
  · have := rmmod_loop_par env name 10 0 (Par.outside h hp)
    exact ⟨this.1, hp.follow this.2⟩
  · exact ⟨rfl, hp⟩

theorem unload_modules_par (env : Env) {t t' : Trace} (h : external t = external t') :
    (unload_modules env t).1 = (unload_modules env t').1 ∧
    Par t t' (unload_modules env t).2 (unload_modules env t').2 := by
  have key : ∀ r1 r1' r2 r2' : Int × Trace, r1.1 = r1'.1 → Par t t' r1.2 r1'.2 →
      r2.1 = r2'.1 → Par (r1.2 ++ [.sched_yield]) (r1'.2 ++ [.sched_yield]) r2.2 r2'.2 →
      (if r1.1 ≠ 0 then ((1 : Int), r1.2)
        else if r2.1 ≠ 0 then (1, r2.2) else (0, r2.2)).1 =
      (if r1'.1 ≠ 0 then ((1 : Int), r1'.2)
        else if r2'.1 ≠ 0 then (1, r2'.2) else (0, r2'.2)).1 ∧
      Par t t'
        (if r1.1 ≠ 0 then ((1 : Int), r1.2)
          else if r2.1 ≠ 0 then (1, r2.2) else (0, r2.2)).2
        (if r1'.1 ≠ 0 then ((1 : Int), r1'.2)
          else if r2'.1 ≠ 0 then (1, r2'.2) else (0, r2'.2)).2 := by
    intro r1 r1' r2 r2' e1 p1 e2 p2
    rw [e1, e2]
    split_ifs
    · exact ⟨rfl, p1⟩
    · exact ⟨rfl, (p1.event _).follow p2⟩
    · exact ⟨rfl, (p1.event _).follow p2⟩
  have s1 := unload_step_par env (WIFI_DRIVER_MODULE_NAME ++ " ") WIFI_DRIVER_MODULE_NAME h
  have s2 := unload_step_par env (WIFI_SDIO_IF_DRIVER_MODULE_NAME ++ " ")
    WIFI_SDIO_IF_DRIVER_MODULE_NAME (Par.outside h (s1.2.event .sched_yield))
  exact key _ _ _ _ s1.1 s1.2 s2.1 s2.2

/-- C20: `wifi_qsap_unload_driver` and `wifi_qsap_unload_wifi_sta_driver` return the
same value, and after their entry they make the same calls with the same
arguments and the same answers, in the same order; the station variant then
makes one more call, a `sched_yield`. -/
theorem unload_variants_equivalent (env : Env) (t : Trace) :
    (wifi_qsap_unload_driver env t).1 = (wifi_qsap_unload_wifi_sta_driver env t).1 ∧
    ∃ es, (wifi_qsap_unload_driver env t).2 =
        t ++ .enter "wifi_qsap_unload_driver" :: es ∧
      (wifi_qsap_unload_wifi_sta_driver env t).2 =
        t ++ .enter "wifi_qsap_unload_wifi_sta_driver" :: (es ++ [.sched_yield]) := by
  have h0 : external (t ++ [.enter "wifi_qsap_unload_driver"]) =
      external (t ++ [.enter "wifi_qsap_unload_wifi_sta_driver"]) := by
    simp [external, Event.isEnter]
  have p1 := run_system_par env SDIO_POLLING_ON h0
  have p2 := unload_modules_par env (Par.outside h0 p1)
  have p3 := run_system_par env SDIO_POLLING_OFF (Par.outside (Par.outside h0 p1) p2.2)
  obtain ⟨es, hes, hes'⟩ := (p1.follow p2.2).follow p3
  refine ⟨rfl, es, ?_, ?_⟩
  · show (run_system env SDIO_POLLING_OFF _).2 = _
    rw [hes]
    simp
  · show (run_system env SDIO_POLLING_OFF _).2 ++ [.sched_yield] = _
    rw [hes']
    simp

/-! ### The start that never finds the service running -/

theorem is_softap_enabled_not_running (c : Header) (env : Env) (t : Trace)
    (h : ¬ ((env.property_get (external t) "init.svc.hostapd").1 ≠ 0 ∧
      (env.property_get (external t) "init.svc.hostapd").2 = "running")) :
    (is_softap_enabled c env t).1 = c.DISABLE := by
  unfold is_softap_enabled
  simp only []
  rw [if_neg h]

theorem NoneRunning.tail {es fs : Trace} (h : NoneRunning (es ++ fs)) : NoneRunning fs :=
  fun key ret value hmem => h key ret value (List.mem_append_right es hmem)

/-- The retry loop when none of its status reads finds the service running: it fails,
and what it adds to the trace are its `retry` rounds, all failed. -/
theorem start_softap_loop_failed_rounds (c : Header) (env : Env) (hD : c.DISABLE = 0)
    (retry : Nat) (t es : Trace)
    (hes : (start_softap_loop c env (retry + 1) t).2 = t ++ es) (hnone : NoneRunning es) :
    (start_softap_loop c env (retry + 1) t).1 = c.eERR_START_SAP ∧ FailedRounds retry es := by
  induction retry generalizing t es with
  | zero =>
    have : es = [] := by
      have h : t ++ [] = t ++ es := by simpa [start_softap_loop] using hes
      exact (List.append_cancel_left h).symm
    exact ⟨rfl, this⟩
  | succ n ih =>
    rw [start_softap_loop] at hes ⊢
    simp only [] at hes ⊢
    by_cases hset : env.property_set (external t) "ctl.start" "hostapd" = 0
    · rw [if_neg (not_not.2 hset)] at hes ⊢
      rw [hset] at hes ⊢
      have htr := is_softap_enabled_trace c env
        (t ++ [.property_set "ctl.start" "hostapd" 0] ++ [.sleep 1])
      have hdown := is_softap_enabled_not_running c env
        (t ++ [.property_set "ctl.start" "hostapd" 0] ++ [.sleep 1])
      generalize is_softap_enabled c env
        (t ++ [.property_set "ctl.start" "hostapd" 0] ++ [.sleep 1]) = up at htr hdown hes ⊢
      generalize env.property_get
        (external (t ++ [.property_set "ctl.start" "hostapd" 0] ++ [.sleep 1]))
        "init.svc.hostapd" = status at htr hdown
      by_cases hup : up.1 ≠ 0
      · rw [if_pos hup] at hes
        have hes' : es = [.property_set "ctl.start" "hostapd" 0, .sleep 1,
            .property_get "init.svc.hostapd" status.1 status.2] := by
          have h : t ++ [.property_set "ctl.start" "hostapd" 0, .sleep 1,
              .property_get "init.svc.hostapd" status.1 status.2] = t ++ es := by
            rw [← hes]
            show _ = up.2
            rw [htr]
            simp
          exact (List.append_cancel_left h).symm
        have hnot := hnone "init.svc.hostapd" status.1 status.2 (by rw [hes']; simp)
        exact absurd ((hdown hnot).trans hD) hup
      · rw [if_neg hup] at hes ⊢
        obtain ⟨es', hes2, -⟩ := start_softap_loop_emits (P := fun _ => True)
          (fun _ _ => trivial) c env n up.2
        have hsplit : es = [.property_set "ctl.start" "hostapd" 0, .sleep 1,
            .property_get "init.svc.hostapd" status.1 status.2] ++ es' := by
          have h : t ++ ([.property_set "ctl.start" "hostapd" 0, .sleep 1,
              .property_get "init.svc.hostapd" status.1 status.2] ++ es') = t ++ es := by
            rw [← hes, hes2, htr]
            simp
          exact (List.append_cancel_left h).symm
        have hnot := hnone "init.svc.hostapd" status.1 status.2 (by rw [hsplit]; simp)
        obtain ⟨hres, hrounds⟩ := ih up.2 es' hes2 (NoneRunning.tail (hsplit ▸ hnone))
        exact ⟨hres, _, es', hsplit, Or.inr ⟨status.1, status.2, hnot, rfl⟩, hrounds⟩
    · rw [if_pos hset] at hes ⊢
      obtain ⟨es', hes2, -⟩ := start_softap_loop_emits (P := fun _ => True)
        (fun _ _ => trivial) c env n
        (t ++ [.property_set "ctl.start" "hostapd"
          (env.property_set (external t) "ctl.start" "hostapd")])
      have hsplit : es = [.property_set "ctl.start" "hostapd"
          (env.property_set (external t) "ctl.start" "hostapd")] ++ es' := by
        have h : t ++ ([.property_set "ctl.start" "hostapd"
            (env.property_set (external t) "ctl.start" "hostapd")] ++ es') = t ++ es := by
          rw [← hes, hes2]
          simp
        exact (List.append_cancel_left h).symm
      obtain ⟨hres, hrounds⟩ := ih _ es' hes2 (NoneRunning.tail (hsplit ▸ hnone))
      exact ⟨hres, _, es', hsplit, Or.inl ⟨_, hset, rfl⟩, hrounds⟩

/-- Failed rounds, counted: one trigger a round, and a one-second sleep for each
accepted trigger. -/
theorem FailedRounds.counts (n : Nat) (es : Trace) (h : FailedRounds n es) :
    (startTriggers es).length = n ∧
    sleepSeconds es = List.replicate ((startTriggers es).count 0) 1 := by
  induction n generalizing es with
  | zero =>
    have : es = [] := h
    subst this
    exact ⟨rfl, rfl⟩
  | succ n ih =>
    obtain ⟨r, rest, hsplit, hround, hrest⟩ := h
    obtain ⟨hlen, hsleep⟩ := ih rest hrest
    subst hsplit
    rcases hround with ⟨ret, hret, rfl⟩ | ⟨ret, value, -, rfl⟩
    · refine ⟨by simp [startTriggers_trigger, hlen], ?_⟩
      rw [List.singleton_append, startTriggers_trigger, sleepSeconds_property_set, hsleep,
        List.count_cons_of_ne (Ne.symm hret)]
    · refine ⟨by simp [startTriggers_trigger, startTriggers_sleep,
        startTriggers_property_get, hlen], ?_⟩
      simp [startTriggers_trigger, startTriggers_sleep, startTriggers_property_get,
        sleepSeconds_sleep, sleepSeconds_property_set, sleepSeconds_property_get, hsleep,
        List.replicate_succ]

/-- C2 (amended): when none of the status reads that `wifi_qsap_start_softap` makes
during the call finds the service running, it returns `eERR_START_SAP`, and
what it has done is 3 rounds: in each, one start trigger
`property_set("ctl.start", "hostapd")`, followed by nothing when the trigger
is refused (no sleep, no status read), and by `sleep(1)` and the status read
when it is accepted.  So there are exactly 3 triggers, and as many one-second
sleeps as accepted triggers. -/
theorem start_softap_never_running (c : Header) (env : Env) (t es : Trace)
    (hD : c.DISABLE = 0)
    (hes : (wifi_qsap_start_softap c env t).2 = t ++ .enter "wifi_qsap_start_softap" :: es)
    (hnone : NoneRunning es) :
    (wifi_qsap_start_softap c env t).1 = c.eERR_START_SAP ∧
    FailedRounds 3 es ∧
    (startTriggers es).length = 3 ∧
    sleepSeconds es = List.replicate ((startTriggers es).count 0) 1 := by
  have hes' : (start_softap_loop c env (3 + 1) (t ++ [.enter "wifi_qsap_start_softap"])).2 =
      t ++ [.enter "wifi_qsap_start_softap"] ++ es := by
    rw [List.append_assoc]
    exact hes
  obtain ⟨hres, hrounds⟩ := start_softap_loop_failed_rounds c env hD 3 _ es hes' hnone
  exact ⟨hres, hrounds, FailedRounds.counts 3 es hrounds⟩

/-- C2 (amended) at `envDown`, where all 3 triggers are accepted and the service stays
down, and at `envRefusedLive`, where the service is running all along but no
status read is made, every trigger being refused. -/
theorem start_softap_never_running_witness :
    ((wifi_qsap_start_softap sampleHeader envDown []).1 = sampleHeader.eERR_START_SAP ∧
      FailedRounds 3
        [.property_set "ctl.start" "hostapd" 0, .sleep 1,
          .property_get "init.svc.hostapd" 0 "",
          .property_set "ctl.start" "hostapd" 0, .sleep 1,
          .property_get "init.svc.hostapd" 0 "",
          .property_set "ctl.start" "hostapd" 0, .sleep 1,
          .property_get "init.svc.hostapd" 0 ""]) ∧
    ((wifi_qsap_start_softap sampleHeader envRefusedLive []).1 =
        sampleHeader.eERR_START_SAP ∧
      (is_softap_enabled sampleHeader envRefusedLive []).1 = sampleHeader.ENABLE ∧
      FailedRounds 3
        [.property_set "ctl.start" "hostapd" (-1),
          .property_set "ctl.start" "hostapd" (-1),
          .property_set "ctl.start" "hostapd" (-1)]) := by
  have a := start_softap_never_running sampleHeader envDown []
    [.property_set "ctl.start" "hostapd" 0, .sleep 1,
      .property_get "init.svc.hostapd" 0 "",
      .property_set "ctl.start" "hostapd" 0, .sleep 1,
      .property_get "init.svc.hostapd" 0 "",
      .property_set "ctl.start" "hostapd" 0, .sleep 1,
      .property_get "init.svc.hostapd" 0 ""] rfl rfl (by
        intro key ret value hmem
        simp at hmem
        rcases hmem with ⟨-, h, -⟩
        simp [h])
  have b := start_softap_never_running sampleHeader envRefusedLive []
    [.property_set "ctl.start" "hostapd" (-1),
      .property_set "ctl.start" "hostapd" (-1),
      .property_set "ctl.start" "hostapd" (-1)] rfl rfl (by
        intro key ret value hmem
        simp at hmem)
  exact ⟨⟨a.1, a.2.1⟩, ⟨b.1, rfl, b.2.1⟩⟩
/-! ### The result of the load and what it depends on -/

/-- C14 (amended): `wifi_qsap_load_driver` returns the first non-zero module-load result.
If loading the bus-interface module gives a non-zero result, that is the
result, and after that load only "polling off" is issued (the main module is
not tried); otherwise the result is that of loading the main wifi module.
The return codes of the polling commands and the outcome of the station
unload are not tested: they bear on the result only through the two module
loads, so that a second run, in whatever environment, in which the loads
return the same values returns the same result. -/
theorem load_driver_first_nonzero (env : Env) (t : Trace) :
    ((load_sdioif env t).1 ≠ 0 →
      ∃ off, wifi_qsap_load_driver env t =
        ((load_sdioif env t).1, (load_sdioif env t).2 ++ [.system SDIO_POLLING_OFF off])) ∧
    ((load_sdioif env t).1 = 0 →
      (wifi_qsap_load_driver env t).1 = (load_wlan env t).1) ∧
    ∀ (env' : Env) (t' : Trace), (load_sdioif env t).1 = (load_sdioif env' t').1 →
      ((load_sdioif env t).1 = 0 → (load_wlan env t).1 = (load_wlan env' t').1) →
      (wifi_qsap_load_driver env t).1 = (wifi_qsap_load_driver env' t').1 := by
  have hres : ∀ (e : Env) (u : Trace), (wifi_qsap_load_driver e u).1 =
      if (load_sdioif e u).1 ≠ 0 then (load_sdioif e u).1 else (load_wlan e u).1 := by
    intro e u
    rw [wifi_qsap_load_driver_eq]
    split_ifs <;> rfl
  refine ⟨?_, ?_, ?_⟩
  · intro h
    rw [wifi_qsap_load_driver_eq, if_pos h]
    exact ⟨_, rfl⟩
  · intro h
    rw [hres, if_neg (by simp [h])]
  · intro env' t' h1 h2
    rw [hres, hres, ← h1]
    by_cases h : (load_sdioif env t).1 = 0
    · rw [if_neg (by simp [h]), if_neg (by simp [h]), h2 h]
    · rw [if_pos h, if_pos h]

/-- C14 (amended) at `envRejected 5` (the first load fails with 5), at `envIdle` (both
loads return 0), and at `envIdle` against `envPollingFails`, where the polling
commands and the removals fail and the loads still return 0. -/
theorem load_driver_first_nonzero_witness :
    (∃ off, wifi_qsap_load_driver (envRejected 5) [] =
      (5, (load_sdioif (envRejected 5) []).2 ++ [.system SDIO_POLLING_OFF off])) ∧
    (wifi_qsap_load_driver envIdle []).1 = (load_wlan envIdle []).1 ∧
    (wifi_qsap_load_driver envIdle []).1 = (wifi_qsap_load_driver envPollingFails []).1 :=
  ⟨(load_driver_first_nonzero (envRejected 5) []).1 (by decide),
    (load_driver_first_nonzero envIdle []).2.1 (by decide),
    (load_driver_first_nonzero envIdle []).2.2 envPollingFails [] (by decide)
      (fun _ => by decide)⟩

/-- C14 (as stated, fails): the result depends on the outcome of the station unload and
on the return codes of the polling commands.  The two `envStation` differ in
nothing but the answer to `delete_module`: where the station `wlan` is
removed, the main module is inserted, is rejected, and the result is 7; where
the removal fails, `wlan` is still in the registry, the insertion is skipped,
and the result is 0.  The two `envPolled` differ in nothing but the return
code of the polling commands, and the results are 0 and 5. -/
theorem load_driver_depends_on_unload_and_polling :
    envStation (-1, 16) =
      { envStation (0, 0) with delete_module := fun _ _ _ => (-1, 16) } ∧
    (wifi_qsap_load_driver (envStation (0, 0)) []).1 = 7 ∧
    (wifi_qsap_load_driver (envStation (-1, 16)) []).1 = 0 ∧
    envPolled 127 = { envPolled 0 with system := fun _ _ => 127 } ∧
    (wifi_qsap_load_driver (envPolled 0) []).1 = 0 ∧
    (wifi_qsap_load_driver (envPolled 127) []).1 = 5 :=
  ⟨rfl, by decide, by decide, rfl, by decide, by decide⟩

end Qsap
